import Mathlib

/-!
# Verification of the football-scout query/scoring core

Shallow embedding of the repository's core services:

* `MatchExplanationService` (match scoring and explanation generation),
* `AIQueryParserService` (query parsing with classifier/cache/fallback paths),
* `SearchParameterValidator` (the zod `AdvancedSearchSchema`).

JavaScript numbers are modelled as exact rationals (`ℚ`); every rounded
constant produced by the source (`Math.round(weight * factor)`) agrees with
its exact-rational value, which was checked against IEEE-754 double
evaluation of the source expressions.  JavaScript truthiness is modelled
explicitly: a number is truthy iff it is nonzero, a string iff it is
nonempty, an object (including `Date`) iff it is present.  Wall-clock reads
(`Date.now()`, `new Date()`) are modelled by threading an explicit `now`
argument (epoch milliseconds).
-/

namespace FootballScout

/-! ## JavaScript string primitives -/

/-- The whitespace characters recognised by the embedding of `String.prototype.trim`
and of the regex class `\s` (the ASCII subset; the queries at issue contain no
exotic Unicode whitespace). -/
def isWsChar (c : Char) : Bool :=
  c.toNat = 32 || c.toNat = 9 || c.toNat = 10 || c.toNat = 13 ||
    c.toNat = 11 || c.toNat = 12

/-- ASCII lower-casing of one character (`String.prototype.toLowerCase`). -/
def charLower (c : Char) : Char :=
  if 65 ≤ c.toNat ∧ c.toNat ≤ 90 then Char.ofNat (c.toNat + 32) else c

/-- ASCII upper-casing of one character (`String.prototype.toUpperCase`). -/
def charUpper (c : Char) : Char :=
  if 97 ≤ c.toNat ∧ c.toNat ≤ 122 then Char.ofNat (c.toNat - 32) else c

/-- JavaScript strings are modelled as lists of characters in the parser. -/
abbrev JStr := List Char

/-- `s.toLowerCase()`. -/
def jsToLower (s : JStr) : JStr := s.map charLower

/-- `s.trim()`: drop whitespace from both ends. -/
def jsTrim (s : JStr) : JStr :=
  ((s.dropWhile isWsChar).reverse.dropWhile isWsChar).reverse

/-- `haystack.includes(needle)`: substring containment. -/
def containsSub (haystack needle : JStr) : Bool :=
  match haystack with
  | [] => needle.isEmpty
  | _ :: rest => needle.isPrefixOf haystack || containsSub rest needle

/-- `String.prototype.toLowerCase` on a Lean `String`. -/
def jsToLowerStr (s : String) : String := String.mk (jsToLower s.toList)

/-- `String.prototype.toUpperCase` on a Lean `String`. -/
def jsToUpperStr (s : String) : String := String.mk (s.toList.map charUpper)

/-- `a.includes(b)` on Lean `String`s. -/
def strIncludes (a b : String) : Bool := containsSub a.toList b.toList

/-- `Math.round` (round half toward positive infinity). -/
def jsRound (q : ℚ) : Int := ⌊q + 1/2⌋

/-- Truthiness of an optional JS number: present and nonzero. -/
def numTruthy (v : Option ℚ) : Bool :=
  match v with
  | none => false
  | some q => q ≠ 0

/-- Truthiness of an optional JS string: present and nonempty. -/
def strTruthy (v : Option String) : Bool :=
  match v with
  | none => false
  | some s => s ≠ ""

/-- `v || d` for an optional JS number (`0` is falsy). -/
def numOrDefault (v : Option ℚ) (d : ℚ) : ℚ :=
  if numTruthy v then v.getD d else d

/-! ## Data model (`src/backend/src/models`, `search-parameters.schema.ts`) -/

/-- `TRANSFER_STATUS = ['available', 'contract_ending', 'any']`. -/
inductive TransferStatus
  | available
  | contract_ending
  | any
  deriving DecidableEq

/-- A `{ min?: number; max?: number }` range object. -/
structure NumRange where
  min : Option ℚ := none
  max : Option ℚ := none
  deriving DecidableEq

/-- The `Player` interface.  Optional fields are `Option`; the three
season-stat fields are required by the interface.  `contractExpires` is the
epoch-millisecond value of the `Date` (`Date` objects are always truthy, so
its truthiness is plain presence). -/
structure Player where
  name : String
  position : Option String := none
  age : Option ℚ := none
  nationality : Option String := none
  currentClub : Option String := none
  marketValueEuros : Option ℚ := none
  league : Option String := none
  heightCm : Option ℚ := none
  foot : Option String := none
  goalsThisSeason : ℚ
  assistsThisSeason : ℚ
  appearancesThisSeason : ℚ
  contractExpires : Option ℚ := none
  deriving DecidableEq

/-- `AdvancedSearchParameters` (the output type of the zod
`AdvancedSearchSchema`; also the parameter type of `MatchExplanationService`).
The session-tracking fields (`searchId`, `sessionId`, `userIp`) are omitted:
no claim touches them and their only validation is format checks. -/
structure AdvancedSearchParameters where
  query : Option String := none
  name : Option String := none
  position : Option (List String) := none
  age : Option NumRange := none
  nationality : Option (List String) := none
  currentClub : Option (List String) := none
  league : Option (List String) := none
  marketValue : Option NumRange := none
  height : Option NumRange := none
  foot : Option String := none
  goals : Option NumRange := none
  assists : Option NumRange := none
  appearances : Option NumRange := none
  transferStatus : Option TransferStatus := none
  contractExpiring : Option Bool := none
  keywords : Option (List String) := none
  sortBy : String := "relevance"
  sortDirection : String := "desc"
  page : ℚ := 1
  limit : ℚ := 20
  exactMatch : Bool := false
  includeRetired : Bool := false
  originalQuery : Option String := none
  parsedIntent : Option String := none
  priorityFactors : List String := []
  confidence : Option ℚ := none
  deriving DecidableEq

/-- `matchStrength: 'perfect' | 'good' | 'partial' | 'weak'`
(the third tier is named `partialTier` here because `partial` is a Lean
keyword). -/
inductive MatchStrength
  | perfect
  | good
  | partialTier
  | weak
  deriving DecidableEq

structure MatchedCriterion where
  criterion : String
  searchValue : String
  playerValue : String
  matchStrength : MatchStrength
  explanation : String
  deriving DecidableEq

structure MatchExplanation where
  summary : String
  matchedCriteria : List MatchedCriterion
  strengthScore : Int
  potentialConcerns : List String
  additionalContext : String
  deriving DecidableEq

structure ExplanationContext where
  searchIntent : String
  priorityFactors : List String
  originalQuery : String
  resultRank : ℚ
  totalResults : ℚ
  deriving DecidableEq

/-! ## MatchExplanationService (src/unnamed/part_001) -/

/-- `SCORING_WEIGHTS`. -/
structure Weights where
  position : ℕ
  age : ℕ
  nationality : ℕ
  league : ℕ
  marketValue : ℕ
  performance : ℕ
  club : ℕ
  physical : ℕ
  contract : ℕ

def SCORING_WEIGHTS : Weights :=
  { position := 25, age := 20, nationality := 15, league := 12,
    marketValue := 10, performance := 8, club := 5, physical := 3,
    contract := 2 }

/-- `POSITION_BENCHMARKS` entry. -/
structure Benchmark where
  goals : ℚ
  assists : ℚ
  appearances : ℚ
  deriving DecidableEq

def POSITION_BENCHMARKS : String → Option Benchmark
  | "ST" => some ⟨15, 5, 25⟩
  | "CF" => some ⟨12, 8, 25⟩
  | "LW" => some ⟨8, 10, 25⟩
  | "RW" => some ⟨8, 10, 25⟩
  | "CAM" => some ⟨6, 12, 25⟩
  | "CM" => some ⟨4, 8, 25⟩
  | "CDM" => some ⟨2, 6, 25⟩
  | "LB" => some ⟨1, 4, 25⟩
  | "RB" => some ⟨1, 4, 25⟩
  | "CB" => some ⟨2, 2, 25⟩
  | "GK" => some ⟨0, 0, 25⟩
  | _ => none

/-- Result of one criterion-scoring helper: `{ score, explanation }`.
Scores are natural numbers: every value the source produces is a whole
number (`Math.round` of a weight multiple or a sum of integer points). -/
structure ScoreResult where
  score : ℕ
  explanation : String
  deriving DecidableEq

/-- Decimal rendering of a JS number.  Integral values print exactly as JS
does; non-integral values use Lean's rational rendering (no claim depends
on the decimal text of a non-integral number). -/
def qToStr (q : ℚ) : String :=
  if q.den = 1 then toString q.num else toString q

/-- `(q).toFixed(1)` for the nonnegative values reaching it. -/
def toFixed1 (q : ℚ) : String :=
  let n : Int := ⌊q * 10 + 1/2⌋
  let whole := n / 10
  let frac := (n % 10).natAbs
  s!"{whole}.{frac}"

/-- `(q).toFixed(0)` for the nonnegative values reaching it. -/
def toFixed0 (q : ℚ) : String :=
  let n : Int := ⌊q + 1/2⌋
  s!"{n}"

/-- `MatchExplanationService.formatValue`. -/
def formatValue (value : ℚ) : String :=
  if 1000000 ≤ value then toFixed1 (value / 1000000) ++ "M"
  else if 1000 ≤ value then toFixed0 (value / 1000) ++ "K"
  else qToStr value

/-- `MatchExplanationService.getCompatiblePositions`. -/
def getCompatiblePositions : String → List String
  | "ST" => ["CF"]
  | "CF" => ["ST", "CAM"]
  | "LW" => ["LM", "LWB"]
  | "RW" => ["RM", "RWB"]
  | "CAM" => ["CM", "CF"]
  | "CM" => ["CDM", "CAM"]
  | "CDM" => ["CM", "CB"]
  | "LB" => ["LWB", "LM"]
  | "RB" => ["RWB", "RM"]
  | "CB" => ["CDM"]
  | _ => []

/-- `MatchExplanationService.scorePosition`. -/
def scorePosition (p : Player) (searchPositions : List String) : ScoreResult :=
  if !strTruthy p.position then
    ⟨0, "Player position not specified"⟩
  else
    let posStr := p.position.getD ""
    let playerPos := jsToUpperStr posStr
    let joined := String.intercalate ", " searchPositions
    if searchPositions.contains playerPos then
      ⟨SCORING_WEIGHTS.position, s!"Perfect position match: {posStr}"⟩
    else
      let compatiblePositions := getCompatiblePositions playerPos
      if searchPositions.any (fun pos => compatiblePositions.contains pos) then
        -- Math.round(SCORING_WEIGHTS.position * 0.7) = 18 (the double 25 * 0.7 is exactly 17.5)
        ⟨18, s!"Compatible position: {posStr} can play {joined}"⟩
      else
        ⟨0, s!"Position mismatch: {posStr} vs requested {joined}"⟩

/-- Display of `${v || '?'}` for a range bound. -/
def boundDisp (v : Option ℚ) : String :=
  if numTruthy v then qToStr (v.getD 0) else "?"

/-- `MatchExplanationService.scoreAge`. -/
def scoreAge (p : Player) (ageRange : NumRange) : ScoreResult :=
  if !numTruthy p.age then
    ⟨0, "Player age not specified"⟩
  else
    let a := p.age.getD 0
    let mn := ageRange.min
    let mx := ageRange.max
    let mnv := mn.getD 0
    let mxv := mx.getD 0
    let aS := qToStr a
    if numTruthy mn && numTruthy mx && decide (mnv ≤ a) && decide (a ≤ mxv) then
      ⟨SCORING_WEIGHTS.age, s!"Perfect age match: {aS} within {qToStr mnv}-{qToStr mxv} range"⟩
    else if numTruthy mx && !numTruthy mn && decide (a ≤ mxv) then
      ⟨SCORING_WEIGHTS.age, s!"Age requirement met: {aS} under {qToStr mxv}"⟩
    else if numTruthy mn && !numTruthy mx && decide (mnv ≤ a) then
      ⟨SCORING_WEIGHTS.age, s!"Age requirement met: {aS} over {qToStr mnv}"⟩
    else if numTruthy mn && numTruthy mx &&
        ((decide (mnv - 2 ≤ a) && decide (a < mnv)) ||
         (decide (mxv < a) && decide (a ≤ mxv + 2))) then
      -- Math.round(SCORING_WEIGHTS.age * 0.5) = 10
      ⟨10, s!"Close to age range: {aS} near {qToStr mnv}-{qToStr mxv}"⟩
    else
      ⟨0, s!"Age mismatch: {aS} vs requested {boundDisp mn}-{boundDisp mx}"⟩

/-- `MatchExplanationService.scoreNationality`. -/
def scoreNationality (p : Player) (searchNationalities : List String) : ScoreResult :=
  if !strTruthy p.nationality then
    ⟨0, "Player nationality not specified"⟩
  else
    let pn := p.nationality.getD ""
    let joined := String.intercalate ", " searchNationalities
    if searchNationalities.any (fun n => jsToLowerStr pn = jsToLowerStr n) then
      ⟨SCORING_WEIGHTS.nationality, s!"Nationality match: {pn}"⟩
    else if searchNationalities.any (fun n =>
        strIncludes (jsToLowerStr pn) (jsToLowerStr n) ||
        strIncludes (jsToLowerStr n) (jsToLowerStr pn)) then
      -- Math.round(SCORING_WEIGHTS.nationality * 0.8) = 12
      ⟨12, s!"Nationality partial match: {pn}"⟩
    else
      ⟨0, s!"Nationality mismatch: {pn} vs {joined}"⟩

def topLeagues : List String :=
  ["Premier League", "La Liga", "Bundesliga", "Serie A", "Ligue 1"]

/-- `MatchExplanationService.scoreLeague`. -/
def scoreLeague (p : Player) (searchLeagues : List String) : ScoreResult :=
  if !strTruthy p.league then
    ⟨0, "Player league not specified"⟩
  else
    let lg := p.league.getD ""
    let joined := String.intercalate ", " searchLeagues
    if searchLeagues.any (fun league => jsToLowerStr lg = jsToLowerStr league) then
      ⟨SCORING_WEIGHTS.league, s!"League match: {lg}"⟩
    else if topLeagues.contains lg && searchLeagues.any (fun league => topLeagues.contains league) then
      -- Math.round(SCORING_WEIGHTS.league * 0.6) = 7
      ⟨7, s!"Similar level league: {lg} (top European league)"⟩
    else
      ⟨0, s!"League mismatch: {lg} vs {joined}"⟩

/-- `MatchExplanationService.scoreMarketValue`. -/
def scoreMarketValue (p : Player) (valueRange : NumRange) : ScoreResult :=
  if !numTruthy p.marketValueEuros then
    ⟨0, "Player market value not specified"⟩
  else
    let playerValue := p.marketValueEuros.getD 0
    let mn := valueRange.min
    let mx := valueRange.max
    let mnv := mn.getD 0
    let mxv := mx.getD 0
    let vS := formatValue playerValue
    if numTruthy mn && numTruthy mx && decide (mnv ≤ playerValue) && decide (playerValue ≤ mxv) then
      ⟨SCORING_WEIGHTS.marketValue, s!"Market value within budget: €{vS}"⟩
    else if numTruthy mx && !numTruthy mn && decide (playerValue ≤ mxv) then
      ⟨SCORING_WEIGHTS.marketValue, s!"Under budget: €{vS} (max €{formatValue mxv})"⟩
    else if numTruthy mn && !numTruthy mx && decide (mnv ≤ playerValue) then
      ⟨SCORING_WEIGHTS.marketValue, s!"Quality player: €{vS} (min €{formatValue mnv})"⟩
    else if numTruthy mx && decide (mxv < playerValue) && decide (playerValue ≤ mxv * (6/5)) then
      -- Math.round(SCORING_WEIGHTS.marketValue * 0.6) = 6
      ⟨6, s!"Slightly over budget: €{vS} (max €{formatValue mxv})"⟩
    else
      ⟨0, s!"Market value mismatch: €{vS}"⟩

/-- `MatchExplanationService.scorePerformance`.  JS division semantics for
a zero benchmark are made explicit: `0/0` is `NaN` (every `>=` comparison
false, no points) and `x/0` for `x > 0` is `Infinity` (top tier). -/
def scorePerformance (p : Player) (_sp : AdvancedSearchParameters) : ScoreResult :=
  if !strTruthy p.position then
    ⟨0, "Position not specified for performance evaluation"⟩
  else
    let position := jsToUpperStr (p.position.getD "")
    let benchmark := (POSITION_BENCHMARKS position).getD ⟨4, 8, 25⟩
    let g := p.goalsThisSeason
    let a := p.assistsThisSeason
    let apps := p.appearancesThisSeason
    let goalsPart : ℕ × List String :=
      if benchmark.goals = 0 then
        (if 0 < g then (3, [s!"Excellent goals: {qToStr g}"]) else (0, []))
      else
        let r := g / benchmark.goals
        if (6 : ℚ)/5 ≤ r then (3, [s!"Excellent goals: {qToStr g}"])
        else if (4 : ℚ)/5 ≤ r then (2, [s!"Good goals: {qToStr g}"])
        else if (1 : ℚ)/2 ≤ r then (1, [s!"Average goals: {qToStr g}"])
        else (0, [])
    let assistsPart : ℕ × List String :=
      if benchmark.assists = 0 then
        (if 0 < a then (3, [s!"Excellent assists: {qToStr a}"]) else (0, []))
      else
        let r := a / benchmark.assists
        if (6 : ℚ)/5 ≤ r then (3, [s!"Excellent assists: {qToStr a}"])
        else if (4 : ℚ)/5 ≤ r then (2, [s!"Good assists: {qToStr a}"])
        else (0, [])
    let appsPart : ℕ × List String :=
      if benchmark.appearances ≤ apps then (2, [s!"Regular starter: {qToStr apps} games"])
      else if benchmark.appearances * (7/10) ≤ apps then (1, [s!"Good availability: {qToStr apps} games"])
      else (0, [])
    let performanceScore := goalsPart.1 + assistsPart.1 + appsPart.1
    let explanations := goalsPart.2 ++ assistsPart.2 ++ appsPart.2
    let finalScore := min performanceScore SCORING_WEIGHTS.performance
    ⟨finalScore,
      if explanations.isEmpty then "Limited performance data"
      else String.intercalate ", " explanations⟩

/-- `MatchExplanationService.scoreContractStatus`.  `now` is the value of
`new Date().getTime()` (epoch milliseconds); `1000*60*60*24*30 = 2592000000`. -/
def scoreContractStatus (p : Player) (sp : AdvancedSearchParameters) (now : ℚ) : ScoreResult :=
  match p.contractExpires with
  | none => ⟨0, "Contract expiry date not available"⟩
  | some expiry =>
    let monthsLeft : Int := jsRound ((expiry - now) / 2592000000)
    let requested := sp.transferStatus = some TransferStatus.available ∨ sp.contractExpiring = some true
    if requested ∧ monthsLeft ≤ 6 then
      ⟨SCORING_WEIGHTS.contract, s!"Contract expires soon: {monthsLeft} months (potential bargain)"⟩
    else if requested ∧ monthsLeft ≤ 12 then
      -- Math.round(SCORING_WEIGHTS.contract * 0.8) = 2
      ⟨2, s!"Contract expires within a year: {monthsLeft} months"⟩
    else if 24 < monthsLeft then
      -- Math.round(SCORING_WEIGHTS.contract * 0.5) = 1
      ⟨1, s!"Long-term contract: {monthsLeft} months remaining"⟩
    else
      ⟨0, "Contract status neutral"⟩

/-- One entry of `DetailedMatchScore.breakdown`. -/
structure BreakdownEntry where
  score : ℕ
  maxScore : ℕ
  weight : ℕ
  explanation : String
  deriving DecidableEq

def mkEntry (r : ScoreResult) (w : ℕ) : BreakdownEntry :=
  ⟨r.score, w, w, r.explanation⟩

structure DetailedMatchScore where
  totalScore : ℕ
  maxPossibleScore : ℕ
  percentage : ℚ
  breakdown : List (String × BreakdownEntry)
  deriving DecidableEq

/-- The breakdown object of `calculateDetailedScore`, as the list of its
entries in insertion order (JS object iteration order).  A criterion is
present exactly when the source's `if` guard admits it; every entry sets
`maxScore = weight = SCORING_WEIGHTS[criterion]` and contributes its score
to `totalScore` and its weight to `maxPossibleScore`, so those two sums are
taken over this list. -/
def breakdownList (p : Player) (sp : AdvancedSearchParameters) (now : ℚ) :
    List (String × BreakdownEntry) :=
  (match sp.position with
   | some ps => [("position", mkEntry (scorePosition p ps) SCORING_WEIGHTS.position)]
   | none => []) ++
  (match sp.age with
   | some r => [("age", mkEntry (scoreAge p r) SCORING_WEIGHTS.age)]
   | none => []) ++
  (match sp.nationality with
   | some ns => [("nationality", mkEntry (scoreNationality p ns) SCORING_WEIGHTS.nationality)]
   | none => []) ++
  (match sp.league with
   | some ls => [("league", mkEntry (scoreLeague p ls) SCORING_WEIGHTS.league)]
   | none => []) ++
  (match sp.marketValue with
   | some r => [("marketValue", mkEntry (scoreMarketValue p r) SCORING_WEIGHTS.marketValue)]
   | none => []) ++
  [("performance", mkEntry (scorePerformance p sp) SCORING_WEIGHTS.performance)] ++
  (if sp.transferStatus.isSome ∨ sp.contractExpiring = some true then
    [("contract", mkEntry (scoreContractStatus p sp now) SCORING_WEIGHTS.contract)]
   else [])

/-- `MatchExplanationService.calculateDetailedScore`. -/
def calculateDetailedScore (p : Player) (sp : AdvancedSearchParameters) (now : ℚ) :
    DetailedMatchScore :=
  let breakdown := breakdownList p sp now
  let totalScore := (breakdown.map (fun e => e.2.score)).sum
  let maxPossibleScore := (breakdown.map (fun e => e.2.maxScore)).sum
  { totalScore := totalScore
    maxPossibleScore := maxPossibleScore
    percentage :=
      if 0 < maxPossibleScore then (totalScore : ℚ) / (maxPossibleScore : ℚ) * 100 else 0
    breakdown := breakdown }

/-- `strengthOrder = { perfect: 4, good: 3, partial: 2, weak: 1 }`. -/
def strengthValue : MatchStrength → ℕ
  | .perfect => 4
  | .good => 3
  | .partialTier => 2
  | .weak => 1

/-- The `matchStrength` tier computed inside `generateMatchedCriteria`:
`strengthPercentage = score / maxScore * 100`, compared with 90 / 70 / 40.
The comparisons are cross-multiplied; for `maxScore = 0` (and `score > 0`,
the only way this code is reached) the JS ratio is `Infinity`, which the
cross-multiplied form also sends to `perfect`. -/
def strengthFromScores (score maxScore : ℕ) : MatchStrength :=
  if 90 * maxScore ≤ 100 * score then .perfect
  else if 70 * maxScore ≤ 100 * score then .good
  else if 40 * maxScore ≤ 100 * score then .partialTier
  else .weak

/-- `MatchExplanationService.getSearchValueForCriterion`. -/
def getSearchValueForCriterion (criterion : String) (sp : AdvancedSearchParameters) : String :=
  match criterion with
  | "position" =>
    (sp.position.map (String.intercalate ", ")).getD ""
  | "age" =>
    let mn := boundDisp (sp.age.bind (fun r => r.min))
    let mx := boundDisp (sp.age.bind (fun r => r.max))
    s!"{mn}-{mx}"
  | "nationality" =>
    (sp.nationality.map (String.intercalate ", ")).getD ""
  | "league" =>
    (sp.league.map (String.intercalate ", ")).getD ""
  | "marketValue" =>
    let mn := formatValue (numOrDefault (sp.marketValue.bind (fun r => r.min)) 0)
    let mx := formatValue (numOrDefault (sp.marketValue.bind (fun r => r.max)) 0)
    s!"€{mn}-{mx}"
  | _ => "Various criteria"

/-- `MatchExplanationService.getPlayerValueForCriterion`. -/
def getPlayerValueForCriterion (criterion : String) (p : Player) : String :=
  match criterion with
  | "position" => if strTruthy p.position then p.position.getD "" else "Unknown"
  | "age" =>
    -- `player.age?.toString() || 'Unknown'`: a present age of 0 prints as "0"
    match p.age with
    | some a => qToStr a
    | none => "Unknown"
  | "nationality" => if strTruthy p.nationality then p.nationality.getD "" else "Unknown"
  | "league" => if strTruthy p.league then p.league.getD "" else "Unknown"
  | "marketValue" =>
    let v := formatValue (numOrDefault p.marketValueEuros 0)
    s!"€{v}"
  | "performance" =>
    let g := qToStr p.goalsThisSeason
    let a := qToStr p.assistsThisSeason
    s!"{g}G, {a}A"
  | _ => "N/A"

/-- `criterion.charAt(0).toUpperCase() + criterion.slice(1)`. -/
def capitalizeStr (s : String) : String :=
  match s.toList with
  | [] => ""
  | c :: rest => String.mk (charUpper c :: rest)

def toCriterion (p : Player) (sp : AdvancedSearchParameters)
    (kv : String × BreakdownEntry) : MatchedCriterion :=
  { criterion := capitalizeStr kv.1
    searchValue := getSearchValueForCriterion kv.1 sp
    playerValue := getPlayerValueForCriterion kv.1 p
    matchStrength := strengthFromScores kv.2.score kv.2.maxScore
    explanation := kv.2.explanation }

/-- Stable insertion step of the descending sort
`criteria.sort((a, b) => strengthOrder[b.matchStrength] - strengthOrder[a.matchStrength])`. -/
def insertByStrength (c : MatchedCriterion) :
    List MatchedCriterion → List MatchedCriterion
  | [] => [c]
  | d :: ds =>
    if strengthValue d.matchStrength < strengthValue c.matchStrength then
      c :: d :: ds
    else
      d :: insertByStrength c ds

/-- The stable descending sort by `strengthOrder`. -/
def sortByStrengthDesc (l : List MatchedCriterion) : List MatchedCriterion :=
  l.foldr insertByStrength []

/-- `MatchExplanationService.generateMatchedCriteria`. -/
def generateMatchedCriteria (p : Player) (sp : AdvancedSearchParameters)
    (ds : DetailedMatchScore) : List MatchedCriterion :=
  sortByStrengthDesc
    ((ds.breakdown.filter (fun kv => 0 < kv.2.score)).map (toCriterion p sp))

/-- `MatchExplanationService.generateSummary`.  `data.score >= data.maxScore * 0.7`
is cross-multiplied (`10 * score ≥ 7 * maxScore`); for every weight in use the
integer solutions agree with the double-precision threshold. -/
def generateSummary (p : Player) (_sp : AdvancedSearchParameters)
    (ds : DetailedMatchScore) (_ctx : ExplanationContext) : String :=
  let percentage : Int := jsRound ds.percentage
  let topCriteria :=
    (((ds.breakdown.filter (fun kv => 7 * kv.2.maxScore ≤ 10 * kv.2.score)).map
      (fun kv => kv.1)).take 3)
  let base :=
    if 80 ≤ percentage then s!"{p.name} is an excellent match ({percentage}%) for your search"
    else if 60 ≤ percentage then s!"{p.name} is a good match ({percentage}%) for your requirements"
    else if 40 ≤ percentage then s!"{p.name} partially matches ({percentage}%) your criteria"
    else s!"{p.name} has limited alignment ({percentage}%) with your search"
  let joined := String.intercalate ", " topCriteria
  let withTop :=
    if topCriteria.length > 0 then base ++ s!", particularly in {joined}" else base
  withTop ++ "."

/-- `MatchExplanationService.identifyPotentialConcerns`. -/
def identifyPotentialConcerns (p : Player) (sp : AdvancedSearchParameters)
    (ds : DetailedMatchScore) : List String :=
  ((ds.breakdown.filter (fun kv => kv.2.score = 0 ∧ 10 ≤ kv.2.maxScore)).map
    (fun kv => capitalizeStr kv.1 ++ " doesn\x27t match requirements")) ++
  (match sp.age with
   | some r =>
     (if numTruthy p.age && numTruthy r.max && decide (r.max.getD 0 + 3 < p.age.getD 0) then
       ["Significantly older than preferred"] else []) ++
     (if numTruthy p.age && numTruthy r.min && decide (p.age.getD 0 < r.min.getD 0 - 2) then
       ["Much younger than preferred"] else [])
   | none => []) ++
  (match sp.marketValue with
   | some r =>
     if numTruthy p.marketValueEuros && numTruthy r.max &&
         decide (r.max.getD 0 * (3/2) < p.marketValueEuros.getD 0) then
       ["Significantly over budget"] else []
   | none => []) ++
  (if p.appearancesThisSeason < 10 then ["Limited playing time this season"] else [])

/-- `MatchExplanationService.generateAdditionalContext`.  `now` is
`Date.now()`. -/
def generateAdditionalContext (p : Player) (_sp : AdvancedSearchParameters)
    (ctx : ExplanationContext) (now : ℚ) : String :=
  let g := qToStr p.goalsThisSeason
  let a := qToStr p.assistsThisSeason
  let apps := qToStr p.appearancesThisSeason
  let contextParts :=
    (if 0 < p.goalsThisSeason ∨ 0 < p.assistsThisSeason then
      [s!"This season: {g} goals, {a} assists in {apps} games"] else []) ++
    (match p.contractExpires with
     | some expiry =>
       let monthsLeft : Int := jsRound ((expiry - now) / 2592000000)
       if monthsLeft ≤ 12 then
         [s!"Contract expires in {monthsLeft} months - potential transfer opportunity"]
       else []
     | none => []) ++
    (if strTruthy p.league then
      let lg := p.league.getD ""
      [s!"Currently playing in {lg}"] else []) ++
    (if ctx.resultRank ≤ 5 then
      [s!"Top {qToStr ctx.resultRank} result out of {qToStr ctx.totalResults}"] else [])
  String.intercalate ". " contextParts

/-- `MatchExplanationService.generateFallbackExplanation`. -/
def generateFallbackExplanation (p : Player)
    (_sp : AdvancedSearchParameters) : MatchExplanation :=
  { summary := s!"{p.name} matches several of your search criteria"
    matchedCriteria := []
    strengthScore := 50
    potentialConcerns := ["Unable to generate detailed analysis"]
    additionalContext := "Basic match evaluation available" }

/-- The happy path of `MatchExplanationService.generateMatchExplanation`
(the body of its `try` block).  For a type-correct `Player` every operation
in the body is total, so this is the value `explain` returns whenever the
candidate record is present. -/
def generateMatchExplanation (p : Player) (sp : AdvancedSearchParameters)
    (ctx : ExplanationContext) (now : ℚ) : MatchExplanation :=
  let detailedScore := calculateDetailedScore p sp now
  { summary := generateSummary p sp detailedScore ctx
    matchedCriteria := generateMatchedCriteria p sp detailedScore
    strengthScore := jsRound detailedScore.percentage
    potentialConcerns := identifyPotentialConcerns p sp detailedScore
    additionalContext := generateAdditionalContext p sp ctx now }

/-- Dereferencing the candidate argument: the first property access on an
absent (`undefined`) candidate raises a `TypeError`. -/
def requireCandidate (player : Option Player) : Except String Player :=
  match player with
  | some p => Except.ok p
  | none => Except.error "TypeError: cannot read properties of undefined"

/-- JS-level `generateMatchExplanation` including its `try`/`catch`: the try
block dereferences the candidate (via `calculateDetailedScore`), and the
`catch` handler calls `generateFallbackExplanation`, whose template literal
`${player.name}` dereferences the candidate again — so an absent candidate
makes the catch handler itself throw. -/
def generateMatchExplanationJS (player : Option Player)
    (sp : AdvancedSearchParameters) (ctx : ExplanationContext) (now : ℚ) :
    Except String MatchExplanation :=
  match (requireCandidate player).map (fun p => generateMatchExplanation p sp ctx now) with
  | Except.ok e => Except.ok e
  | Except.error _ =>
    (requireCandidate player).map (fun p => generateFallbackExplanation p sp)

/-! ## AIQueryParserService (src/backend/src/services/ai-query-parser.service.ts)

`SearchParameters` values flow between the classifier validator, the
fallback parser and the cache.  The `searchId`/`sessionId`/`confidence`/
`fallbackQuery` fields of the interface are never written by this service
and are omitted. -/

structure SearchParameters where
  position : Option (List String) := none
  age : Option NumRange := none
  nationality : Option (List String) := none
  league : Option (List String) := none
  marketValue : Option NumRange := none
  height : Option NumRange := none
  transferStatus : Option TransferStatus := none
  keywords : Option (List String) := none
  originalQuery : String
  parsedIntent : String
  priorityFactors : List String
  deriving DecidableEq

/-- `\d` (ASCII digits). -/
def isDigitChar (c : Char) : Bool := 48 ≤ c.toNat && c.toNat ≤ 57

/-- `parseInt` on a nonempty digit run. -/
def digitsToNat (ds : List Char) : ℕ :=
  ds.foldl (fun n c => 10 * n + (c.toNat - 48)) 0

/-- Match the regex `(\d+)[\s]*-[\s]*(\d+)` anchored at the head of `l`.
The greedy `\d+` never benefits from backtracking here (a shorter digit run
is followed by a digit, which `[\s]*-` rejects), so maximal munch is exact. -/
def tryAgeRangeAt (l : JStr) : Option (ℕ × ℕ) :=
  let ds1 := l.takeWhile isDigitChar
  if ds1.isEmpty then none
  else
    let r2 := (l.dropWhile isDigitChar).dropWhile isWsChar
    match r2 with
    | '-' :: r3 =>
      let ds2 := (r3.dropWhile isWsChar).takeWhile isDigitChar
      if ds2.isEmpty then none else some (digitsToNat ds1, digitsToNat ds2)
    | _ => none

/-- Leftmost match of `/(\d+)[\s]*-[\s]*(\d+)/` (JS `String.prototype.match`). -/
def scanAgeRange : JStr → Option (ℕ × ℕ)
  | [] => none
  | c :: rest =>
    match tryAgeRangeAt (c :: rest) with
    | some r => some r
    | none => scanAgeRange rest

/-- Match `lit` literally at the head of `l` and return the remainder. -/
def matchLit (lit l : JStr) : Option JStr :=
  if lit.isPrefixOf l then some (l.drop lit.length) else none

/-- One alternative `kw[\s]*(\d+)` anchored at the head of `l`. -/
def tryKeywordNum (kw l : JStr) : Option ℕ :=
  match matchLit kw l with
  | some r =>
    let ds := (r.dropWhile isWsChar).takeWhile isDigitChar
    if ds.isEmpty then none else some (digitsToNat ds)
  | none => none

/-- The alternative `(\d+)[\s]*years?[\s]*old` anchored at the head of `l`. -/
def tryYearsOld (l : JStr) : Option ℕ :=
  let ds := l.takeWhile isDigitChar
  if ds.isEmpty then none
  else
    let r1 := (l.dropWhile isDigitChar).dropWhile isWsChar
    match matchLit "year".toList r1 with
    | some r2 =>
      let r3 := match r2 with
        | 's' :: t => t
        | _ => r2
      if "old".toList.isPrefixOf (r3.dropWhile isWsChar) then some (digitsToNat ds) else none
    | none => none

/-- All five alternatives of the single-age regex, in regex order, anchored
at the head of `l`.  Whichever alternative matches, the captured digits are
the returned number (`singleAgeMatch[1] || ... || singleAgeMatch[5]`). -/
def trySingleAgeAt (l : JStr) : Option ℕ :=
  match tryKeywordNum "under".toList l with
  | some n => some n
  | none =>
    match tryKeywordNum "below".toList l with
    | some n => some n
    | none =>
      match tryKeywordNum "over".toList l with
      | some n => some n
      | none =>
        match tryKeywordNum "above".toList l with
        | some n => some n
        | none => tryYearsOld l

/-- Leftmost match of
`/under[\s]*(\d+)|below[\s]*(\d+)|over[\s]*(\d+)|above[\s]*(\d+)|(\d+)[\s]*years?[\s]*old/`. -/
def scanSingleAge : JStr → Option ℕ
  | [] => none
  | c :: rest =>
    match trySingleAgeAt (c :: rest) with
    | some r => some r
    | none => scanSingleAge rest

/-- `\d+(?:\.\d+)?` anchored at the head of `l` (`parseFloat` of the text),
returning the value and the remainder. -/
def tryDecimalAt (l : JStr) : Option (ℚ × JStr) :=
  let ds := l.takeWhile isDigitChar
  if ds.isEmpty then none
  else
    let r1 := l.dropWhile isDigitChar
    match r1 with
    | '.' :: r2 =>
      let fs := r2.takeWhile isDigitChar
      if fs.isEmpty then some ((digitsToNat ds : ℚ), r1)
      else
        some ((digitsToNat ds : ℚ) + (digitsToNat fs : ℚ) / ((10 : ℚ) ^ fs.length),
          r2.dropWhile isDigitChar)
    | _ => some ((digitsToNat ds : ℚ), r1)

/-- Height alternative 1: `(\d+(?:\.\d+)?)[\s]*m`. -/
def tryHeightAlt1 (l : JStr) : Option ℚ :=
  match tryDecimalAt l with
  | some (v, r) =>
    match r.dropWhile isWsChar with
    | 'm' :: _ => some v
    | _ => none
  | none => none

/-- Height alternative 2: `over[\s]*(\d+(?:\.\d+)?)[\s]*m`. -/
def tryHeightAlt2 (l : JStr) : Option ℚ :=
  match matchLit "over".toList l with
  | some r => tryHeightAlt1 (r.dropWhile isWsChar)
  | none => none

/-- Height alternative 3: `(\d+)[\s]*cm`. -/
def tryHeightAlt3 (l : JStr) : Option ℚ :=
  let ds := l.takeWhile isDigitChar
  if ds.isEmpty then none
  else
    match (l.dropWhile isDigitChar).dropWhile isWsChar with
    | 'c' :: 'm' :: _ => some ((digitsToNat ds : ℚ))
    | _ => none

/-- The three height alternatives anchored at the head of `l`; the flag
records whether group 3 (`cm`) was the one that matched. -/
def tryHeightAt (l : JStr) : Option (ℚ × Bool) :=
  match tryHeightAlt1 l with
  | some v => some (v, false)
  | none =>
    match tryHeightAlt2 l with
    | some v => some (v, false)
    | none =>
      match tryHeightAlt3 l with
      | some v => some (v, true)
      | none => none

/-- Leftmost match of the height regex. -/
def scanHeight : JStr → Option (ℚ × Bool)
  | [] => none
  | c :: rest =>
    match tryHeightAt (c :: rest) with
    | some r => some r
    | none => scanHeight rest

/-- The `positionMap` of `parseWithFallback`, in object-literal order. -/
def positionMap : List (String × List String) :=
  [("gk", ["GK"]), ("goalkeeper", ["GK"]),
   ("cb", ["CB"]), ("center-back", ["CB"]),
   ("lb", ["LB"]), ("left-back", ["LB"]),
   ("rb", ["RB"]), ("right-back", ["RB"]),
   ("cm", ["CM"]), ("midfielder", ["CM"]),
   ("cdm", ["CDM"]), ("cam", ["CAM"]),
   ("lw", ["LW"]), ("left-wing", ["LW"]),
   ("rw", ["RW"]), ("right-wing", ["RW"]),
   ("st", ["ST"]), ("striker", ["ST", "CF"]),
   ("cf", ["CF"]), ("center-forward", ["CF"])]

def nationalitiesList : List String :=
  ["brazil", "argentina", "france", "england", "spain", "germany", "italy", "portugal"]

def leagueMap : List (String × String) :=
  [("premier league", "Premier League"), ("la liga", "La Liga"),
   ("bundesliga", "Bundesliga"), ("serie a", "Serie A"), ("ligue 1", "Ligue 1")]

/-- `[...new Set(xs)]`: first-occurrence deduplication. -/
def dedupeAux (seen : List String) : List String → List String
  | [] => []
  | x :: rest =>
    if seen.contains x then dedupeAux seen rest
    else x :: dedupeAux (x :: seen) rest

def dedupe (l : List String) : List String := dedupeAux [] l

/-- `query.split(/\s+/)`: empty fragments produced at whitespace runs are
immaterial because every consumer filters by `word.length > 2`. -/
def splitWsAux (cur : JStr) : JStr → List JStr
  | [] => [cur.reverse]
  | c :: rest =>
    if isWsChar c then cur.reverse :: splitWsAux [] rest
    else splitWsAux (c :: cur) rest

def splitWs (l : JStr) : List JStr := splitWsAux [] l

/-- The age-extraction block of `parseWithFallback` (the range regex first,
then the single-age alternatives with the `under`/`below` / `over`/`above`
branch selection over the whole query and the ±2-year tolerance). -/
def fallbackAge (lowerQuery : JStr) : Option NumRange :=
  match scanAgeRange lowerQuery with
  | some (mn, mx) => some ⟨some (mn : ℚ), some (mx : ℚ)⟩
  | none =>
    match scanSingleAge lowerQuery with
    | some n =>
      if containsSub lowerQuery "under".toList || containsSub lowerQuery "below".toList then
        some ⟨none, some (n : ℚ)⟩
      else if containsSub lowerQuery "over".toList || containsSub lowerQuery "above".toList then
        some ⟨some (n : ℚ), none⟩
      else
        some ⟨some ((n : ℚ) - 2), some ((n : ℚ) + 2)⟩
    | none => none

/-- The height-extraction block of `parseWithFallback` (metres converted to
centimetres, ±5 cm tolerance unless `over`/`above` appears in the query). -/
def fallbackHeight (lowerQuery : JStr) : Option NumRange :=
  match scanHeight lowerQuery with
  | some (v, isCm) =>
    let h := if isCm then v else v * 100
    if containsSub lowerQuery "over".toList || containsSub lowerQuery "above".toList then
      some ⟨some h, none⟩
    else
      some ⟨some (h - 5), some (h + 5)⟩
  | none => none

/-- `AIQueryParserService.parseWithFallback`. -/
def parseWithFallback (query : JStr) : SearchParameters :=
  let lowerQuery := jsToLower query
  let foundPositions :=
    ((positionMap.filter (fun kv => containsSub lowerQuery kv.1.toList)).map
      (fun kv => kv.2)).flatten
  let positionOpt :=
    if foundPositions.length > 0 then some (dedupe foundPositions) else none
  let age : Option NumRange := fallbackAge lowerQuery
  let foundNationalities := nationalitiesList.filter (fun n => containsSub lowerQuery n.toList)
  let nationalityOpt :=
    if foundNationalities.length > 0 then some (foundNationalities.map capitalizeStr) else none
  let foundLeagues :=
    (leagueMap.filter (fun kv => containsSub lowerQuery kv.1.toList)).map (fun kv => kv.2)
  let leagueOpt := if foundLeagues.length > 0 then some foundLeagues else none
  let height : Option NumRange := fallbackHeight lowerQuery
  let words := (splitWs query).filter (fun w => 2 < w.length)
  let keywords := words.filter (fun word =>
    !(foundPositions.any (fun pos => containsSub (jsToLower word) pos.toList)) &&
    !(foundNationalities.any (fun n => containsSub (jsToLower word) n.toList)) &&
    !(foundLeagues.any (fun league => containsSub (jsToLower word) league.toList)) &&
    !(word.any isDigitChar))
  { originalQuery := String.mk query
    parsedIntent := "Basic keyword search (fallback parsing)"
    priorityFactors :=
      (if foundPositions.length > 0 then ["position"] else []) ++
      (if age.isSome then ["age"] else []) ++
      (if foundNationalities.length > 0 then ["nationality"] else []) ++
      (if foundLeagues.length > 0 then ["league"] else []) ++
      (if height.isSome then ["height"] else [])
    position := positionOpt
    age := age
    nationality := nationalityOpt
    league := leagueOpt
    height := height
    keywords := some (keywords.map String.mk) }

/-- The JSON argument object of a successful classifier function call, as
typed by `SEARCH_PARAMETERS_SCHEMA` (the `typeof`/`Array.isArray` guards of
`validateSearchParameters` reject other shapes, which the typed embedding
represents by construction). -/
structure RawClassifierOutput where
  position : Option (List String) := none
  age : Option NumRange := none
  nationality : Option (List String) := none
  league : Option (List String) := none
  marketValue : Option NumRange := none
  transferStatus : Option String := none
  keywords : Option (List String) := none
  parsedIntent : Option String := none
  priorityFactors : Option (List String) := none
  deriving DecidableEq

def validPositions : List String :=
  ["GK", "CB", "LB", "RB", "LWB", "RWB", "CDM", "CM", "CAM", "LM", "RM", "LW", "RW", "ST", "CF"]

/-- `AIQueryParserService.validateSearchParameters`.  Each age bound is kept
iff it lies in [16, 45]; each market-value bound iff it is ≥ 0; the range
object is kept iff a surviving bound is truthy (nonzero).  No comparison of
`min` against `max` is performed. -/
def clampBound (keep : ℚ → Bool) (v : Option ℚ) : Option ℚ :=
  match v with
  | some m => if keep m then some m else none
  | none => none

/-- The per-range clamp of `validateSearchParameters`: keep each bound that
passes `keep`, then keep the object iff a surviving bound is truthy. -/
def clampRange (keep : ℚ → Bool) (v : Option NumRange) : Option NumRange :=
  match v with
  | some r =>
    let mn := clampBound keep r.min
    let mx := clampBound keep r.max
    if numTruthy mn || numTruthy mx then some ⟨mn, mx⟩ else none
  | none => none

def validateSearchParameters (params : RawClassifierOutput) : SearchParameters :=
  let parsedIntent :=
    match params.parsedIntent with
    | some s => if s ≠ "" then s else "Football player search"
    | none => "Football player search"
  let age := clampRange (fun m => decide (16 ≤ m) && decide (m ≤ 45)) params.age
  let marketValue := clampRange (fun m => decide (0 ≤ m)) params.marketValue
  let transferStatus :=
    match params.transferStatus with
    | some "available" => some TransferStatus.available
    | some "contract_ending" => some TransferStatus.contract_ending
    | some "any" => some TransferStatus.any
    | _ => none
  { originalQuery := ""
    parsedIntent := parsedIntent
    priorityFactors := params.priorityFactors.getD []
    position := params.position.map
      (fun l => (l.map jsToUpperStr).filter (fun q => validPositions.contains q))
    age := age
    nationality := params.nationality
    league := params.league
    marketValue := marketValue
    transferStatus := transferStatus
    keywords := params.keywords }

/-- `AIQueryParserService.calculateConfidence` (exact rational sums; the
double-precision accumulation of the source agrees on equal inputs). -/
def calculateConfidence (params : SearchParameters) : ℚ :=
  let nonemptyArr : Option (List String) → Bool := fun v =>
    match v with
    | some l => decide (l.length > 0)
    | none => false
  let c0 : ℚ := 1/2
  let c1 := if nonemptyArr params.position then c0 + 1/5 else c0
  let c2 := if params.age.isSome then c1 + 3/20 else c1
  let c3 := if nonemptyArr params.nationality then c2 + 1/10 else c2
  let c4 := if nonemptyArr params.league then c3 + 1/10 else c3
  let c5 := if params.marketValue.isSome then c4 + 1/10 else c4
  let c6 := if params.priorityFactors.length > 0 then c5 + 1/10 else c5
  min c6 1

structure CacheEntry where
  result : SearchParameters
  timestamp : ℚ
  confidence : ℚ
  deriving DecidableEq

/-- The private `Map<string, CacheEntry>`, as its entry list in insertion
order. -/
abbrev Cache := List (JStr × CacheEntry)

def mapGet : Cache → JStr → Option CacheEntry
  | [], _ => none
  | (k, e) :: rest, key => if k = key then some e else mapGet rest key

/-- `Map.prototype.set`: replace in place or append. -/
def mapSet : Cache → JStr → CacheEntry → Cache
  | [], key, e => [(key, e)]
  | (k, e0) :: rest, key, e =>
    if k = key then (key, e) :: rest else (k, e0) :: mapSet rest key e

def cacheMaxAge : ℚ := 86400000

/-- `AIQueryParserService.getCachedResult`. -/
def getCachedResult (cache : Cache) (query : JStr) (now : ℚ) : Option CacheEntry :=
  match mapGet cache (jsTrim (jsToLower query)) with
  | some cached => if now - cached.timestamp < cacheMaxAge then some cached else none
  | none => none

/-- `AIQueryParserService.cacheResult`. -/
def cacheResult (cache : Cache) (query : JStr) (result : SearchParameters)
    (confidence : ℚ) (now : ℚ) : Cache :=
  mapSet cache (jsTrim (jsToLower query)) ⟨result, now, confidence⟩

/-- The `ParsedQuery` result of `parseQuery`.  `processingTime` (wall-clock
duration) and `usage` (token accounting) are omitted: no claim concerns
them. -/
structure ParsedQuery where
  searchParameters : SearchParameters
  confidence : ℚ
  fallbackUsed : Bool
  cacheHit : Option Bool := none
  deriving DecidableEq

/-- One `parseQuery` invocation: the returned value, the cache it leaves
behind, and whether the external classifier was invoked. -/
structure ParseOutcome where
  result : ParsedQuery
  cache : Cache
  classifierInvoked : Bool
  deriving DecidableEq

/-- `AIQueryParserService.parseQuery`.  `classify` models the outcome of
`parseWithAIFunctionCalling`: `some raw` is the parsed argument object of a
successful function call (after up to 3 retries), `none` means the call
threw after exhausting its retries (retry timing/backoff is not modelled).
The guard `!freeText.trim() || freeText.trim().length <= 1` is equivalent
to `freeText.trim().length <= 1` since the empty string has length 0; it
throws into the `catch` block, which runs `parseWithFallback`. -/
def parseQuery (freeText : JStr) (cache : Cache) (now : ℚ)
    (classify : Option RawClassifierOutput) : ParseOutcome :=
  match getCachedResult cache freeText now with
  | some cached =>
    { result :=
        { searchParameters := { cached.result with originalQuery := String.mk freeText }
          confidence := cached.confidence
          fallbackUsed := false
          cacheHit := some true }
      cache := cache
      classifierInvoked := false }
  | none =>
    if (jsTrim freeText).length ≤ 1 then
      { result :=
          { searchParameters := parseWithFallback freeText
            confidence := 3/5
            fallbackUsed := true }
        cache := cache
        classifierInvoked := false }
    else
      match classify with
      | some raw =>
        let validated := validateSearchParameters raw
        let confidence := calculateConfidence validated
        { result :=
            { searchParameters := { validated with originalQuery := String.mk freeText }
              confidence := confidence
              fallbackUsed := false }
          cache := cacheResult cache freeText validated confidence now
          classifierInvoked := true }
      | none =>
        { result :=
            { searchParameters := parseWithFallback freeText
              confidence := 3/5
              fallbackUsed := true }
          cache := cache
          classifierInvoked := true }

/-! ## SearchParameterValidator (src/unnamed/part_003, zod `AdvancedSearchSchema`)

The schema is embedded as an issue-collecting validator over a typed raw
input: each zod combinator contributes the list of issues it raises, and
`safeParse` succeeds iff no issues were collected.  The issue message texts
are abbreviated except for the three `.refine` messages, which are the
source's.  Session-tracking fields (`searchId`, `sessionId`, `userIp`) are
omitted (pure format checks, untouched by any claim). -/

def FOOTBALL_POSITIONS : List String :=
  ["GK", "CB", "LB", "RB", "LWB", "RWB", "CDM", "CM", "CAM", "LM", "RM", "LW", "RW", "ST", "CF"]

def MAJOR_LEAGUES : List String :=
  ["Premier League", "La Liga", "Bundesliga", "Serie A", "Ligue 1", "Eredivisie",
   "Primeira Liga", "Championship", "Champions League", "Europa League",
   "Conference League", "MLS", "Liga MX", "Brazilian Serie A", "Argentine Primera"]

def PREFERRED_FOOT : List String := ["Left", "Right", "Both"]

def TRANSFER_STATUS_VALUES : List String := ["available", "contract_ending", "any"]

def SORT_FIELDS : List String := ["name", "age", "marketValue", "goals", "assists", "relevance"]

def SORT_DIRECTIONS : List String := ["asc", "desc"]

/-- The raw (unvalidated) advanced-search input, typed per the schema shape. -/
structure RawAdvancedSearch where
  query : Option String := none
  name : Option String := none
  position : Option (List String) := none
  age : Option NumRange := none
  nationality : Option (List String) := none
  currentClub : Option (List String) := none
  league : Option (List String) := none
  marketValue : Option NumRange := none
  height : Option NumRange := none
  foot : Option String := none
  goals : Option NumRange := none
  assists : Option NumRange := none
  appearances : Option NumRange := none
  transferStatus : Option String := none
  contractExpiring : Option Bool := none
  keywords : Option (List String) := none
  sortBy : Option String := none
  sortDirection : Option String := none
  page : Option ℚ := none
  limit : Option ℚ := none
  exactMatch : Option Bool := none
  includeRetired : Option Bool := none
  originalQuery : Option String := none
  parsedIntent : Option String := none
  priorityFactors : Option (List String) := none
  confidence : Option ℚ := none
  deriving DecidableEq

/-- `z.string().min(minLen).max(maxLen).optional()`. -/
def zString (field : String) (minLen maxLen : ℕ) (v : Option String) : List String :=
  match v with
  | none => []
  | some s =>
    (if minLen ≤ s.length then [] else [field ++ ": string too short"]) ++
    (if s.length ≤ maxLen then [] else [field ++ ": string too long"])

/-- `z.number().min(lo).max(hi).optional()` (with `.int()` when `int`). -/
def zNumber (field : String) (int : Bool) (lo hi : ℚ) (v : Option ℚ) : List String :=
  match v with
  | none => []
  | some q =>
    (if int && !decide (q.den = 1) then [field ++ ": not an integer"] else []) ++
    (if lo ≤ q then [] else [field ++ ": below minimum"]) ++
    (if q ≤ hi then [] else [field ++ ": above maximum"])

/-- `z.array(z.string().min(elemMin).max(elemMax)).min(minLen).max(maxLen).optional()`. -/
def zStrArray (field : String) (elemMin elemMax minLen maxLen : ℕ)
    (v : Option (List String)) : List String :=
  match v with
  | none => []
  | some l =>
    (if minLen ≤ l.length then [] else [field ++ ": too few items"]) ++
    (if l.length ≤ maxLen then [] else [field ++ ": too many items"]) ++
    (l.map (fun s => zString field elemMin elemMax (some s))).flatten

/-- `z.enum(allowed).optional()`. -/
def zEnum (field : String) (allowed : List String) (v : Option String) : List String :=
  match v with
  | none => []
  | some s => if allowed.contains s then [] else [field ++ ": invalid enum value"]

/-- `z.array(z.enum(allowed)).min(minLen).max(maxLen).optional()`. -/
def zEnumArray (field : String) (allowed : List String) (minLen maxLen : ℕ)
    (v : Option (List String)) : List String :=
  match v with
  | none => []
  | some l =>
    (if minLen ≤ l.length then [] else [field ++ ": too few items"]) ++
    (if l.length ≤ maxLen then [] else [field ++ ": too many items"]) ++
    (l.map (fun s => zEnum field allowed (some s))).flatten

/-- An optional integer-range object
`z.object({ min: ..., max: ... }).optional()`, with the
`(data) => !data || !data.min || !data.max || data.min <= data.max`
refinement when `refine` is set (the refinement runs only when the object
itself parsed without issues, and is skipped when either bound is falsy —
in particular when a bound is 0). -/
def zRange (field : String) (lo hi : ℚ) (refine : Bool) (msg : String)
    (v : Option NumRange) : List String :=
  match v with
  | none => []
  | some r =>
    let base := zNumber (field ++ ".min") true lo hi r.min ++
      zNumber (field ++ ".max") true lo hi r.max
    if refine && base.isEmpty then
      if !numTruthy r.min || !numTruthy r.max ||
          decide (r.min.getD 0 ≤ r.max.getD 0) then
        base
      else
        base ++ [msg]
    else
      base

def strToTransferStatus (s : String) : Option TransferStatus :=
  match s with
  | "available" => some TransferStatus.available
  | "contract_ending" => some TransferStatus.contract_ending
  | "any" => some TransferStatus.any
  | _ => none

/-- The issue list of `AdvancedSearchSchema.safeParse`, fields in schema
order. -/
def advancedSchemaIssues (raw : RawAdvancedSearch) : List String :=
  zString "query" 1 500 raw.query ++
  zString "name" 1 100 raw.name ++
  zEnumArray "position" FOOTBALL_POSITIONS 1 5 raw.position ++
  zRange "age" 16 45 true "Minimum age cannot be greater than maximum age" raw.age ++
  zStrArray "nationality" 2 50 1 10 raw.nationality ++
  zStrArray "currentClub" 1 100 1 20 raw.currentClub ++
  zEnumArray "league" MAJOR_LEAGUES 1 10 raw.league ++
  zRange "marketValue" 0 500000000 true
    "Minimum market value cannot be greater than maximum market value" raw.marketValue ++
  zRange "height" 150 220 true
    "Minimum height cannot be greater than maximum height" raw.height ++
  zEnum "foot" PREFERRED_FOOT raw.foot ++
  zRange "goals" 0 200 false "" raw.goals ++
  zRange "assists" 0 200 false "" raw.assists ++
  zRange "appearances" 0 100 false "" raw.appearances ++
  zEnum "transferStatus" TRANSFER_STATUS_VALUES raw.transferStatus ++
  zStrArray "keywords" 1 50 1 20 raw.keywords ++
  zEnum "sortBy" SORT_FIELDS raw.sortBy ++
  zEnum "sortDirection" SORT_DIRECTIONS raw.sortDirection ++
  zNumber "page" true 1 1000 raw.page ++
  zNumber "limit" true 1 100 raw.limit ++
  zString "originalQuery" 0 1000 raw.originalQuery ++
  zString "parsedIntent" 0 500 raw.parsedIntent ++
  zStrArray "priorityFactors" 0 50 0 10 raw.priorityFactors ++
  zNumber "confidence" false 0 1 raw.confidence

/-- `SearchParameterValidator.safeValidateAdvanced`: success carries the
parsed data (raw values plus schema defaults), failure carries the issues. -/
def safeValidateAdvanced (raw : RawAdvancedSearch) :
    Except (List String) AdvancedSearchParameters :=
  let issues := advancedSchemaIssues raw
  if issues.isEmpty then
    Except.ok
      { query := raw.query
        name := raw.name
        position := raw.position
        age := raw.age
        nationality := raw.nationality
        currentClub := raw.currentClub
        league := raw.league
        marketValue := raw.marketValue
        height := raw.height
        foot := raw.foot
        goals := raw.goals
        assists := raw.assists
        appearances := raw.appearances
        transferStatus := raw.transferStatus.bind strToTransferStatus
        contractExpiring := raw.contractExpiring
        keywords := raw.keywords
        sortBy := raw.sortBy.getD "relevance"
        sortDirection := raw.sortDirection.getD "desc"
        page := raw.page.getD 1
        limit := raw.limit.getD 20
        exactMatch := raw.exactMatch.getD false
        includeRetired := raw.includeRetired.getD false
        originalQuery := raw.originalQuery
        parsedIntent := raw.parsedIntent
        priorityFactors := raw.priorityFactors.getD []
        confidence := raw.confidence }
  else
    Except.error issues

/-! ## Predicates for the parser invariants -/

/-- A cache state is well formed when every key has length at least 2.
Keys are written only by `cacheResult`, which `parseQuery` reaches only
when `freeText.trim().length > 1`, so every reachable cache state is well
formed (see `parseQuery_preserves_cacheKeysWF`). -/
def cacheKeysWF (cache : Cache) : Prop := ∀ kv ∈ cache, 2 ≤ kv.1.length

/-- The spec's range invariant for one range field: when both bounds are
present, `min ≤ max`. -/
def rangeOrderedB : Option NumRange → Bool
  | some ⟨some a, some b⟩ => decide (a ≤ b)
  | _ => true

/-- The spec's range invariant over a `SearchParameters` value (its three
range fields: age, marketValue, height). -/
def rangeInvariantB (sp : SearchParameters) : Bool :=
  rangeOrderedB sp.age && rangeOrderedB sp.marketValue && rangeOrderedB sp.height

/-- The first textual age range `N-M` found in the lower-cased query, if
any, is ordered (`N ≤ M`). -/
def fallbackAgeTextOrderedB (q : JStr) : Bool :=
  match scanAgeRange (jsToLower q) with
  | some (mn, mx) => decide (mn ≤ mx)
  | none => true

/-- The classifier output (when the classifier succeeds) already satisfies
the range invariant for its age and market-value ranges. -/
def clsRangesOrderedB : Option RawClassifierOutput → Bool
  | some raw => rangeOrderedB raw.age && rangeOrderedB raw.marketValue
  | none => true

/-- Every cached `SearchParameters` value satisfies the range invariant. -/
def cacheRangesOrderedB (cache : Cache) : Bool :=
  cache.all (fun kv => rangeInvariantB kv.2.result)

/-! ## Concrete example records used by witnesses and counterexamples -/

/-- A goalkeeper with no attacking output and no appearances. -/
def exGK0 : Player :=
  { name := "Test Keeper", position := some "GK",
    goalsThisSeason := 0, assistsThisSeason := 0, appearancesThisSeason := 0 }

/-- The same goalkeeper with a full 25-appearance season. -/
def exGK25 : Player := { exGK0 with appearancesThisSeason := 25 }

def exParamsEmpty : AdvancedSearchParameters := {}

def exCtx : ExplanationContext :=
  { searchIntent := "", priorityFactors := [], originalQuery := "",
    resultRank := 1, totalResults := 10 }

/-- A striker whose contract expires at epoch-millisecond 259200000000
(100 of the source's 30-day months). -/
def exC9Player : Player :=
  { name := "Contract Case", position := some "ST",
    goalsThisSeason := 15, assistsThisSeason := 5, appearancesThisSeason := 25,
    contractExpires := some 259200000000 }

def exC9Params : AdvancedSearchParameters := { transferStatus := some TransferStatus.available }

/-- 95 months into the epoch: 5 months before `exC9Player`'s expiry. -/
def exT95 : ℚ := 246240000000

/-- 80 months into the epoch: 20 months before `exC9Player`'s expiry. -/
def exT80 : ℚ := 207360000000

/-- A raw advanced-search input whose goals range is reversed (min 10 > max 5). -/
def exC5Raw : RawAdvancedSearch := { goals := some ⟨some 10, some 5⟩ }

/-- A raw advanced-search input whose age range is reversed (min 30 > max 16). -/
def exC5AgeRaw : RawAdvancedSearch := { age := some ⟨some 30, some 16⟩ }

/-! Basic lemmas about the string primitives. -/

theorem toNat_charOfNat {n : Nat} (h : n.isValidChar) : (Char.ofNat n).toNat = n := by
  unfold Char.ofNat
  rw [dif_pos h]
  rfl

theorem isWsChar_charLower (c : Char) : isWsChar (charLower c) = isWsChar c := by
  unfold charLower
  split
  · rename_i h
    have hv : (c.toNat + 32).isValidChar := Or.inl (by omega)
    have htn : (Char.ofNat (c.toNat + 32)).toNat = c.toNat + 32 := toNat_charOfNat hv
    simp only [isWsChar]
    rw [htn, Bool.eq_iff_iff]
    simp only [Bool.or_eq_true, decide_eq_true_eq]
    omega
  · rfl

theorem jsTrim_map_charLower (s : JStr) :
    jsTrim (jsToLower s) = jsToLower (jsTrim s) := by
  have hws : isWsChar ∘ charLower = isWsChar := by
    funext c; exact isWsChar_charLower c
  simp only [jsTrim, jsToLower, List.dropWhile_map, hws, ← List.map_reverse]

theorem length_jsTrim_jsToLower (s : JStr) :
    (jsTrim (jsToLower s)).length = (jsTrim s).length := by
  rw [jsTrim_map_charLower]
  simp [jsToLower]

/-! ## Helper lemmas: per-criterion score bounds -/

theorem scorePosition_score_le (p : Player) (ps : List String) :
    (scorePosition p ps).score ≤ SCORING_WEIGHTS.position := by
  unfold scorePosition
  dsimp only
  split
  · simp
  · split
    · simp
    · split <;> simp [SCORING_WEIGHTS]

theorem scoreAge_score_le (p : Player) (r : NumRange) :
    (scoreAge p r).score ≤ SCORING_WEIGHTS.age := by
  unfold scoreAge
  dsimp only
  split
  · simp
  · split
    · simp
    · split
      · simp
      · split
        · simp
        · split <;> simp [SCORING_WEIGHTS]

theorem scoreNationality_score_le (p : Player) (ns : List String) :
    (scoreNationality p ns).score ≤ SCORING_WEIGHTS.nationality := by
  unfold scoreNationality
  dsimp only
  split
  · simp
  · split
    · simp
    · split <;> simp [SCORING_WEIGHTS]

theorem scoreLeague_score_le (p : Player) (ls : List String) :
    (scoreLeague p ls).score ≤ SCORING_WEIGHTS.league := by
  unfold scoreLeague
  dsimp only
  split
  · simp
  · split
    · simp
    · split <;> simp [SCORING_WEIGHTS]

theorem scoreMarketValue_score_le (p : Player) (r : NumRange) :
    (scoreMarketValue p r).score ≤ SCORING_WEIGHTS.marketValue := by
  unfold scoreMarketValue
  dsimp only
  split
  · simp
  · split
    · simp
    · split
      · simp
      · split
        · simp
        · split <;> simp [SCORING_WEIGHTS]

theorem scorePerformance_score_le (p : Player) (sp : AdvancedSearchParameters) :
    (scorePerformance p sp).score ≤ SCORING_WEIGHTS.performance := by
  unfold scorePerformance
  split
  · simp
  · exact Nat.min_le_right _ _

theorem scoreContractStatus_score_le (p : Player) (sp : AdvancedSearchParameters) (now : ℚ) :
    (scoreContractStatus p sp now).score ≤ SCORING_WEIGHTS.contract := by
  unfold scoreContractStatus
  dsimp only
  split
  · simp
  · split
    · simp
    · split
      · simp [SCORING_WEIGHTS]
      · split <;> simp [SCORING_WEIGHTS]

/-- Every breakdown entry scores at most its `maxScore`. -/
theorem mem_breakdownList_score_le (p : Player) (sp : AdvancedSearchParameters) (now : ℚ) :
    ∀ e ∈ breakdownList p sp now, e.2.score ≤ e.2.maxScore := by
  intro e he
  unfold breakdownList at he
  simp only [List.mem_append] at he
  rcases he with ((((((h | h) | h) | h) | h) | h) | h)
  · rcases hs : sp.position with _ | ps <;> rw [hs] at h <;> simp at h
    rw [h]
    exact scorePosition_score_le p ps
  · rcases hs : sp.age with _ | r <;> rw [hs] at h <;> simp at h
    rw [h]
    exact scoreAge_score_le p r
  · rcases hs : sp.nationality with _ | ns <;> rw [hs] at h <;> simp at h
    rw [h]
    exact scoreNationality_score_le p ns
  · rcases hs : sp.league with _ | ls <;> rw [hs] at h <;> simp at h
    rw [h]
    exact scoreLeague_score_le p ls
  · rcases hs : sp.marketValue with _ | r <;> rw [hs] at h <;> simp at h
    rw [h]
    exact scoreMarketValue_score_le p r
  · simp at h
    rw [h]
    exact scorePerformance_score_le p sp
  · split at h
    · simp at h
      rw [h]
      exact scoreContractStatus_score_le p sp now
    · simp at h

theorem totalScore_le_maxPossibleScore (p : Player) (sp : AdvancedSearchParameters) (now : ℚ) :
    (calculateDetailedScore p sp now).totalScore ≤
      (calculateDetailedScore p sp now).maxPossibleScore := by
  unfold calculateDetailedScore
  dsimp only
  exact List.sum_le_sum (mem_breakdownList_score_le p sp now)

/-- The percentage formula is bounded once `totalScore ≤ maxPossibleScore`. -/
theorem pct_formula_bounds (T M : ℕ) (h : T ≤ M) :
    0 ≤ (if 0 < M then (T : ℚ) / (M : ℚ) * 100 else 0) ∧
    (if 0 < M then (T : ℚ) / (M : ℚ) * 100 else 0) ≤ 100 ∧
    (M = 0 → (if 0 < M then (T : ℚ) / (M : ℚ) * 100 else 0) = 0) := by
  refine ⟨?_, ?_, ?_⟩
  · split
    · positivity
    · exact le_refl 0
  · split
    · rename_i hM
      have h1 : (T : ℚ) ≤ (M : ℚ) := by exact_mod_cast h
      have h2 : (0 : ℚ) < (M : ℚ) := by exact_mod_cast hM
      rw [div_mul_eq_mul_div, div_le_iff₀ h2]
      nlinarith
    · norm_num
  · intro hM
    simp [hM]

/-! ## C7 -/

/-- C7: for every candidate and every set of search parameters, the
`DetailedScore` computed by `calculateDetailedScore` has `percentage` in
[0, 100], and `percentage` equals 0 when no criterion was evaluated
(`maxPossibleScore = 0`). -/
theorem C7_detailedScore_percentage_bounds (p : Player)
    (sp : AdvancedSearchParameters) (now : ℚ) :
    0 ≤ (calculateDetailedScore p sp now).percentage ∧
    (calculateDetailedScore p sp now).percentage ≤ 100 ∧
    ((calculateDetailedScore p sp now).maxPossibleScore = 0 →
      (calculateDetailedScore p sp now).percentage = 0) :=
  pct_formula_bounds _ _ (List.sum_le_sum (mem_breakdownList_score_le p sp now))

/-- C7 witness: the bounds at a concrete candidate and parameter set. -/
theorem C7_witness :
    0 ≤ (calculateDetailedScore exGK25 exParamsEmpty 0).percentage ∧
    (calculateDetailedScore exGK25 exParamsEmpty 0).percentage ≤ 100 ∧
    ((calculateDetailedScore exGK25 exParamsEmpty 0).maxPossibleScore = 0 →
      (calculateDetailedScore exGK25 exParamsEmpty 0).percentage = 0) :=
  C7_detailedScore_percentage_bounds exGK25 exParamsEmpty 0

/-! ## C1 -/

/-- C1 counterexample: a goalkeeper candidate with 0 goals and 0 assists
(and 0 appearances) scores performance 0 against the goalkeeper benchmark,
not strictly greater than 0 — in JS, `0 / 0` is `NaN`, so the zero
benchmarks award no attacking points, and with fewer than 70% of the
benchmark appearances no appearance points accrue either. -/
theorem C1_counterexample : ¬ (0 < (scorePerformance exGK0 exParamsEmpty).score) := by
  have h2 : POSITION_BENCHMARKS (jsToUpperStr "GK") = some ⟨0, 0, 25⟩ := rfl
  unfold scorePerformance exGK0
  norm_num [strTruthy, h2, SCORING_WEIGHTS]
  split <;> rfl

/-- C1 amended: for a goalkeeper candidate with 0 goals and 0 assists, the
performance score is strictly positive iff the candidate has at least 17.5
appearances (70% of the 25-appearance benchmark, i.e. ≥ 18 whole matches);
the absence of attacking output is never a penalty — the score equals the
appearance-tier score exactly. -/
theorem C1_amended (p : Player) (sp : AdvancedSearchParameters)
    (hpos : p.position = some "GK") (hg : p.goalsThisSeason = 0)
    (ha : p.assistsThisSeason = 0) :
    (0 < (scorePerformance p sp).score ↔ (35 : ℚ)/2 ≤ p.appearancesThisSeason) ∧
    (scorePerformance p sp).score =
      (if 25 ≤ p.appearancesThisSeason then 2
       else if (35 : ℚ)/2 ≤ p.appearancesThisSeason then 1 else 0) := by
  have h1 : jsToUpperStr "GK" = "GK" := rfl
  have h2 : POSITION_BENCHMARKS "GK" = some ⟨0, 0, 25⟩ := rfl
  have h3 : ((25 : ℚ) * (7/10)) = 35/2 := by norm_num
  unfold scorePerformance
  rw [hpos, hg, ha]
  dsimp only [strTruthy, Option.getD]
  rw [h1, h2]
  dsimp only [Option.getD]
  norm_num [h3, SCORING_WEIGHTS]
  rw [if_neg (show ¬("GK" : String) = "" from by decide)]
  rcases le_or_lt 25 p.appearancesThisSeason with hA | hA
  · have h52 : (35 : ℚ)/2 ≤ p.appearancesThisSeason :=
      le_trans (show (35 : ℚ)/2 ≤ 25 by norm_num) hA
    norm_num [hA, h52]
  · rcases le_or_lt ((35 : ℚ)/2) p.appearancesThisSeason with hB | hB
    · norm_num [hA.not_le, hB]
    · norm_num [hA.not_le, hB.not_le]

/-- C1 witness: the amended claim at a goalkeeper with a full season. -/
theorem C1_witness :
    (0 < (scorePerformance exGK25 exParamsEmpty).score ↔
      (35 : ℚ)/2 ≤ exGK25.appearancesThisSeason) ∧
    (scorePerformance exGK25 exParamsEmpty).score =
      (if 25 ≤ exGK25.appearancesThisSeason then 2
       else if (35 : ℚ)/2 ≤ exGK25.appearancesThisSeason then 1 else 0) :=
  C1_amended exGK25 exParamsEmpty (by decide) (by decide) (by decide)

/-! ## C6 -/

/-- C6 (code-bug evidence): for an absent (`undefined`) candidate record,
the JS-level `generateMatchExplanation` raises a `TypeError` instead of
returning the degraded explanation — the `catch` handler's own
`${player.name}` dereference throws.  For every present candidate the happy
path is returned and nothing is thrown. -/
theorem C6_absent_candidate_throws :
    generateMatchExplanationJS none exParamsEmpty exCtx 0 =
      Except.error "TypeError: cannot read properties of undefined" ∧
    ∀ (p : Player) (sp : AdvancedSearchParameters) (ctx : ExplanationContext) (now : ℚ),
      generateMatchExplanationJS (some p) sp ctx now =
        Except.ok (generateMatchExplanation p sp ctx now) := by
  constructor
  · rfl
  · intro p sp ctx now
    rfl

/-! ## C9 -/

/-- The detailed score of the C9 example five months before contract
expiry: performance 6/8 plus contract 2/2 gives 80%. -/
theorem exC9_percentage_t95 :
    (calculateDetailedScore exC9Player exC9Params exT95).percentage = 80 := by
  unfold calculateDetailedScore breakdownList
  dsimp only
  rw [show exC9Params.position = none from rfl, show exC9Params.age = none from rfl,
    show exC9Params.nationality = none from rfl, show exC9Params.league = none from rfl,
    show exC9Params.marketValue = none from rfl]
  dsimp only [mkEntry]
  have hp : (scorePerformance exC9Player exC9Params).score = 6 := by
    have h1 : jsToUpperStr "ST" = "ST" := rfl
    have h2 : POSITION_BENCHMARKS "ST" = some ⟨15, 5, 25⟩ := rfl
    unfold scorePerformance exC9Player
    dsimp only [strTruthy, Option.getD]
    rw [h1, h2]
    dsimp only [Option.getD]
    norm_num [SCORING_WEIGHTS]
    rw [if_neg (show ¬("ST" : String) = "" from by decide)]
  have hc : (scoreContractStatus exC9Player exC9Params exT95).score = 2 := by
    unfold scoreContractStatus exC9Player exC9Params exT95
    dsimp only
    norm_num [jsRound, SCORING_WEIGHTS]
  rw [show exC9Params.transferStatus = some TransferStatus.available from rfl]
  simp only [Option.isSome_some]
  norm_num [hp, hc, SCORING_WEIGHTS]

/-- The detailed score of the C9 example twenty months before contract
expiry: the contract criterion scores 0, leaving 60%. -/
theorem exC9_percentage_t80 :
    (calculateDetailedScore exC9Player exC9Params exT80).percentage = 60 := by
  unfold calculateDetailedScore breakdownList
  dsimp only
  rw [show exC9Params.position = none from rfl, show exC9Params.age = none from rfl,
    show exC9Params.nationality = none from rfl, show exC9Params.league = none from rfl,
    show exC9Params.marketValue = none from rfl]
  dsimp only [mkEntry]
  have hp : (scorePerformance exC9Player exC9Params).score = 6 := by
    have h1 : jsToUpperStr "ST" = "ST" := rfl
    have h2 : POSITION_BENCHMARKS "ST" = some ⟨15, 5, 25⟩ := rfl
    unfold scorePerformance exC9Player
    dsimp only [strTruthy, Option.getD]
    rw [h1, h2]
    dsimp only [Option.getD]
    norm_num [SCORING_WEIGHTS]
    rw [if_neg (show ¬("ST" : String) = "" from by decide)]
  have hc : (scoreContractStatus exC9Player exC9Params exT80).score = 0 := by
    unfold scoreContractStatus exC9Player exC9Params exT80
    dsimp only
    norm_num [jsRound, SCORING_WEIGHTS]
  rw [show exC9Params.transferStatus = some TransferStatus.available from rfl]
  simp only [Option.isSome_some]
  norm_num [hp, hc, SCORING_WEIGHTS]

/-- C9 counterexample: two calls of `explain` with identical (candidate,
parameters, context) but made at different wall-clock instants return
different explanations — the contract criterion reads the current time, so
the strength score moves from 80 to 60. -/
theorem C9_counterexample :
    generateMatchExplanation exC9Player exC9Params exCtx exT95 ≠
      generateMatchExplanation exC9Player exC9Params exCtx exT80 := by
  intro h
  have hs := congrArg MatchExplanation.strengthScore h
  simp only [generateMatchExplanation] at hs
  rw [exC9_percentage_t95, exC9_percentage_t80] at hs
  norm_num [jsRound] at hs

/-- C9 amended: `explain` is deterministic once the evaluation instant is
fixed, and its output is independent of the wall clock whenever the
candidate has no contract-expiry date (the clock is read only by the
contract criterion and the contract-urgency context line). -/
theorem C9_amended (p : Player) (sp : AdvancedSearchParameters)
    (ctx : ExplanationContext) (t1 t2 : ℚ) (h : p.contractExpires = none) :
    generateMatchExplanation p sp ctx t1 = generateMatchExplanation p sp ctx t2 := by
  have h1 : ∀ t : ℚ, scoreContractStatus p sp t =
      ⟨0, "Contract expiry date not available"⟩ := by
    intro t
    unfold scoreContractStatus
    rw [h]
  have h2 : generateAdditionalContext p sp ctx t1 = generateAdditionalContext p sp ctx t2 := by
    unfold generateAdditionalContext
    rw [h]
  unfold generateMatchExplanation calculateDetailedScore breakdownList
  rw [h1 t1, h1 t2, h2]

/-- C9 witness: the amended claim at a candidate with no contract expiry. -/
theorem C9_witness :
    generateMatchExplanation exGK25 exParamsEmpty exCtx 0 =
      generateMatchExplanation exGK25 exParamsEmpty exCtx 86400000 :=
  C9_amended exGK25 exParamsEmpty exCtx 0 86400000 rfl

/-! ## C8 -/

theorem mem_insertByStrength {x c : MatchedCriterion} {l : List MatchedCriterion} :
    x ∈ insertByStrength c l ↔ x = c ∨ x ∈ l := by
  induction l with
  | nil => simp [insertByStrength]
  | cons d ds ih =>
    unfold insertByStrength
    split
    · simp only [List.mem_cons]
    · simp only [List.mem_cons, ih]
      tauto

theorem pairwise_insertByStrength (c : MatchedCriterion) (l : List MatchedCriterion)
    (h : l.Pairwise (fun a b => strengthValue b.matchStrength ≤ strengthValue a.matchStrength)) :
    (insertByStrength c l).Pairwise
      (fun a b => strengthValue b.matchStrength ≤ strengthValue a.matchStrength) := by
  induction l with
  | nil => simp [insertByStrength]
  | cons d ds ih =>
    rw [List.pairwise_cons] at h
    obtain ⟨hd, hds⟩ := h
    unfold insertByStrength
    split
    · rename_i hlt
      rw [List.pairwise_cons]
      refine ⟨?_, List.pairwise_cons.mpr ⟨hd, hds⟩⟩
      intro x hx
      rcases List.mem_cons.mp hx with rfl | hx
      · exact le_of_lt hlt
      · exact le_trans (hd x hx) (le_of_lt hlt)
    · rename_i hnlt
      rw [List.pairwise_cons]
      refine ⟨?_, ih hds⟩
      intro x hx
      rcases mem_insertByStrength.mp hx with rfl | hx
      · exact Nat.le_of_not_lt hnlt
      · exact hd x hx

theorem pairwise_sortByStrengthDesc (l : List MatchedCriterion) :
    (sortByStrengthDesc l).Pairwise
      (fun a b => strengthValue b.matchStrength ≤ strengthValue a.matchStrength) := by
  induction l with
  | nil => simp [sortByStrengthDesc]
  | cons d ds ih => exact pairwise_insertByStrength d _ ih

theorem mem_sortByStrengthDesc {x : MatchedCriterion} {l : List MatchedCriterion} :
    x ∈ sortByStrengthDesc l ↔ x ∈ l := by
  induction l with
  | nil => simp [sortByStrengthDesc]
  | cons d ds ih =>
    show x ∈ insertByStrength d (sortByStrengthDesc ds) ↔ _
    rw [mem_insertByStrength, ih]
    simp [List.mem_cons]

theorem jsRound_bounds {q : ℚ} (h0 : 0 ≤ q) (h100 : q ≤ 100) :
    0 ≤ jsRound q ∧ jsRound q ≤ 100 := by
  unfold jsRound
  constructor
  · exact Int.floor_nonneg.mpr (by linarith)
  · calc ⌊q + 1/2⌋ ≤ ⌊(100 : ℚ) + 1/2⌋ := Int.floor_le_floor (by linarith)
    _ = 100 := by norm_num

/-- C8: the `MatchExplanation` returned by `explain` has `strengthScore` in
[0, 100]; its `matchedCriteria` are sorted by non-increasing matchStrength
(perfect > good > partial > weak); and each listed criterion originates in
a breakdown entry with score strictly greater than 0, carrying the
matchStrength derived from the score/maxScore thresholds (≥90% perfect,
≥70% good, ≥40% partial, else weak — see `strengthFromScores` inside
`toCriterion`). -/
theorem C8_explanation_shape (p : Player) (sp : AdvancedSearchParameters)
    (ctx : ExplanationContext) (now : ℚ) :
    (0 ≤ (generateMatchExplanation p sp ctx now).strengthScore ∧
      (generateMatchExplanation p sp ctx now).strengthScore ≤ 100) ∧
    (generateMatchExplanation p sp ctx now).matchedCriteria.Pairwise
      (fun a b => strengthValue b.matchStrength ≤ strengthValue a.matchStrength) ∧
    ∀ c ∈ (generateMatchExplanation p sp ctx now).matchedCriteria,
      ∃ kv ∈ (calculateDetailedScore p sp now).breakdown,
        0 < kv.2.score ∧ c = toCriterion p sp kv := by
  have hb := pct_formula_bounds
    ((breakdownList p sp now).map (fun e => e.2.score)).sum
    ((breakdownList p sp now).map (fun e => e.2.maxScore)).sum
    (List.sum_le_sum (mem_breakdownList_score_le p sp now))
  refine ⟨?_, ?_, ?_⟩
  · exact jsRound_bounds hb.1 hb.2.1
  · exact pairwise_sortByStrengthDesc _
  · intro c hc
    have hc' : c ∈ (((calculateDetailedScore p sp now).breakdown.filter
        (fun kv => 0 < kv.2.score)).map (toCriterion p sp)) :=
      mem_sortByStrengthDesc.mp hc
    obtain ⟨kv, hkv, hkvc⟩ := List.mem_map.mp hc'
    obtain ⟨hmem, hpos⟩ := List.mem_filter.mp hkv
    exact ⟨kv, hmem, by simpa using hpos, hkvc.symm⟩

/-- C8 witness: the shape properties at a concrete candidate. -/
theorem C8_witness :
    (0 ≤ (generateMatchExplanation exGK25 exParamsEmpty exCtx 0).strengthScore ∧
      (generateMatchExplanation exGK25 exParamsEmpty exCtx 0).strengthScore ≤ 100) ∧
    (generateMatchExplanation exGK25 exParamsEmpty exCtx 0).matchedCriteria.Pairwise
      (fun a b => strengthValue b.matchStrength ≤ strengthValue a.matchStrength) ∧
    ∀ c ∈ (generateMatchExplanation exGK25 exParamsEmpty exCtx 0).matchedCriteria,
      ∃ kv ∈ (calculateDetailedScore exGK25 exParamsEmpty 0).breakdown,
        0 < kv.2.score ∧ c = toCriterion exGK25 exParamsEmpty kv :=
  C8_explanation_shape exGK25 exParamsEmpty exCtx 0

/-! ## Cache lemmas -/

theorem mapGet_mem {cache : Cache} {k : JStr} {e : CacheEntry}
    (h : mapGet cache k = some e) : (k, e) ∈ cache := by
  induction cache with
  | nil => simp [mapGet] at h
  | cons kv rest ih =>
    obtain ⟨k', e'⟩ := kv
    unfold mapGet at h
    split at h
    · rename_i heq
      injection h with h'
      subst heq h'
      exact List.mem_cons_self _ _
    · exact List.mem_cons_of_mem _ (ih h)

theorem mapGet_mapSet_self (cache : Cache) (k : JStr) (e : CacheEntry) :
    mapGet (mapSet cache k e) k = some e := by
  induction cache with
  | nil => simp [mapSet, mapGet]
  | cons kv rest ih =>
    obtain ⟨k', e'⟩ := kv
    unfold mapSet
    split
    · unfold mapGet
      simp
    · rename_i hne
      unfold mapGet
      rw [if_neg hne]
      exact ih

theorem mem_mapSet {cache : Cache} {k : JStr} {e : CacheEntry} {kv : JStr × CacheEntry}
    (h : kv ∈ mapSet cache k e) : kv ∈ cache ∨ kv.1 = k := by
  induction cache with
  | nil =>
    simp [mapSet] at h
    right
    rw [h]
  | cons kv' rest ih =>
    obtain ⟨k', e'⟩ := kv'
    unfold mapSet at h
    split at h
    · rcases List.mem_cons.mp h with rfl | hm
      · right
        rfl
      · left
        exact List.mem_cons_of_mem _ hm
    · rcases List.mem_cons.mp h with rfl | hm
      · left
        exact List.mem_cons_self _ _
      · rcases ih hm with h1 | h2
        · left
          exact List.mem_cons_of_mem _ h1
        · right
          exact h2

/-- A lookup that misses stays a miss at any later instant (entries only
age; `getCachedResult` never mutates). -/
theorem getCachedResult_none_mono {cache : Cache} {q : JStr} {t1 t2 : ℚ}
    (h : getCachedResult cache q t1 = none) (hle : t1 ≤ t2) :
    getCachedResult cache q t2 = none := by
  unfold getCachedResult at h ⊢
  cases hm : mapGet cache (jsTrim (jsToLower q)) with
  | none => rfl
  | some e =>
    rw [hm] at h
    dsimp only at h ⊢
    split at h
    · cases h
    · rename_i hfresh
      split
      · rename_i h2
        exact absurd (by linarith : t1 - e.timestamp < cacheMaxAge) hfresh
      · rfl

/-- Every cache state `parseQuery` produces from a well-formed one is well
formed: the only write uses the normalized key of a query whose trimmed
length exceeds 1. -/
theorem parseQuery_preserves_cacheKeysWF (q : JStr) (cache : Cache) (now : ℚ)
    (cls : Option RawClassifierOutput) (h : cacheKeysWF cache) :
    cacheKeysWF (parseQuery q cache now cls).cache := by
  unfold parseQuery
  cases hm : getCachedResult cache q now with
  | some e => exact h
  | none =>
    dsimp only
    split
    · exact h
    · rename_i hlen
      cases cls with
      | some raw =>
        dsimp only
        intro kv hkv
        rcases mem_mapSet hkv with h1 | h2
        · exact h kv h1
        · rw [h2, length_jsTrim_jsToLower]
          omega
      | none => exact h

/-! ## C3 -/

/-- C3: on any input whose trimmed length is at most 1, `parseQuery` (in
any reachable — i.e. well-formed — cache state) never invokes the external
classifier and resolves through the fallback with `fallbackUsed = true` and
confidence 0.6. -/
theorem C3_degenerate_input (q : JStr) (cache : Cache) (now : ℚ)
    (cls : Option RawClassifierOutput) (hwf : cacheKeysWF cache)
    (hlen : (jsTrim q).length ≤ 1) :
    (parseQuery q cache now cls).classifierInvoked = false ∧
    (parseQuery q cache now cls).result.fallbackUsed = true ∧
    (parseQuery q cache now cls).result.confidence = 3/5 ∧
    (parseQuery q cache now cls).result.searchParameters = parseWithFallback q := by
  have hmiss : getCachedResult cache q now = none := by
    unfold getCachedResult
    cases hm : mapGet cache (jsTrim (jsToLower q)) with
    | none => rfl
    | some e =>
      exfalso
      have hmem := mapGet_mem hm
      have h2 := hwf _ hmem
      rw [length_jsTrim_jsToLower] at h2
      omega
  simp only [parseQuery, hmiss]
  rw [if_pos hlen]
  exact ⟨rfl, rfl, rfl, rfl⟩

/-- C3 witness: the claim at the one-character query `" x "` in the empty
cache. -/
theorem C3_witness :
    (parseQuery (" x ".toList) [] 0 (some {})).classifierInvoked = false ∧
    (parseQuery (" x ".toList) [] 0 (some {})).result.fallbackUsed = true ∧
    (parseQuery (" x ".toList) [] 0 (some {})).result.confidence = 3/5 ∧
    (parseQuery (" x ".toList) [] 0 (some {})).result.searchParameters =
      parseWithFallback (" x ".toList) :=
  C3_degenerate_input (" x ".toList) [] 0 (some {})
    (by intro kv hkv; cases hkv) (by decide)

/-! ## C4 -/

/-- C4: if a first `parseQuery` call misses the cache and succeeds through
the classifier, a second call with the same normalized (lower-cased,
trimmed) text within the 24-hour freshness window returns `cacheHit = true`,
`fallbackUsed = false`, the first call's confidence, and the same
`SearchParameters` except possibly `originalQuery`. -/
theorem C4_cache_roundtrip (q1 q2 : JStr) (cache : Cache) (t1 t2 : ℚ)
    (raw : RawClassifierOutput) (cls2 : Option RawClassifierOutput)
    (hnorm : jsTrim (jsToLower q2) = jsTrim (jsToLower q1))
    (hmiss : getCachedResult cache q1 t1 = none)
    (hlen : 1 < (jsTrim q1).length)
    (hfresh : t2 - t1 < cacheMaxAge) :
    (parseQuery q2 (parseQuery q1 cache t1 (some raw)).cache t2 cls2).result.cacheHit =
      some true ∧
    (parseQuery q2 (parseQuery q1 cache t1 (some raw)).cache t2 cls2).result.fallbackUsed =
      false ∧
    (parseQuery q2 (parseQuery q1 cache t1 (some raw)).cache t2 cls2).result.confidence =
      (parseQuery q1 cache t1 (some raw)).result.confidence ∧
    (parseQuery q2 (parseQuery q1 cache t1 (some raw)).cache t2 cls2).result.searchParameters =
      { (parseQuery q1 cache t1 (some raw)).result.searchParameters with
          originalQuery := String.mk q2 } := by
  have hcall1 : parseQuery q1 cache t1 (some raw) =
      { result :=
          { searchParameters :=
              { validateSearchParameters raw with originalQuery := String.mk q1 }
            confidence := calculateConfidence (validateSearchParameters raw)
            fallbackUsed := false }
        cache := cacheResult cache q1 (validateSearchParameters raw)
          (calculateConfidence (validateSearchParameters raw)) t1
        classifierInvoked := true } := by
    simp only [parseQuery, hmiss]
    rw [if_neg (by omega)]
  rw [hcall1]
  have hhit : getCachedResult
      (cacheResult cache q1 (validateSearchParameters raw)
        (calculateConfidence (validateSearchParameters raw)) t1) q2 t2 =
      some ⟨validateSearchParameters raw, t1,
        calculateConfidence (validateSearchParameters raw)⟩ := by
    unfold getCachedResult cacheResult
    rw [hnorm, mapGet_mapSet_self]
    dsimp only
    rw [if_pos hfresh]
  simp only [parseQuery, hhit]
  exact ⟨trivial, trivial, trivial, trivial⟩

/-- C4 witness: a concrete round trip on the query `"striker"`. -/
theorem C4_witness :
    (parseQuery ("striker".toList)
        (parseQuery ("striker".toList) [] 0 (some {})).cache 100 none).result.cacheHit =
      some true ∧
    (parseQuery ("striker".toList)
        (parseQuery ("striker".toList) [] 0 (some {})).cache 100 none).result.fallbackUsed =
      false ∧
    (parseQuery ("striker".toList)
        (parseQuery ("striker".toList) [] 0 (some {})).cache 100 none).result.confidence =
      (parseQuery ("striker".toList) [] 0 (some {})).result.confidence ∧
    (parseQuery ("striker".toList)
        (parseQuery ("striker".toList) [] 0 (some {})).cache 100 none).result.searchParameters =
      { (parseQuery ("striker".toList) [] 0 (some {})).result.searchParameters with
          originalQuery := String.mk ("striker".toList) } :=
  C4_cache_roundtrip ("striker".toList) ("striker".toList) [] 0 100 {} none
    rfl rfl (by decide) (by norm_num [cacheMaxAge])

/-! ## C10 -/

/-- C10: whenever `parseQuery` resolves through the fallback, the cache is
left exactly as it was — no entry is added, removed or modified — and an
immediately repeated identical query while the classifier is still
unavailable resolves through the fallback again rather than from the
cache. -/
theorem C10_fallback_frame (q : JStr) (cache : Cache) (now t2 : ℚ)
    (cls : Option RawClassifierOutput)
    (hfb : (parseQuery q cache now cls).result.fallbackUsed = true)
    (hle : now ≤ t2) :
    (parseQuery q cache now cls).cache = cache ∧
    (parseQuery q (parseQuery q cache now cls).cache t2 none).result.fallbackUsed = true := by
  rcases hm : getCachedResult cache q now with _ | e
  case some =>
    exfalso
    simp only [parseQuery, hm] at hfb
    cases hfb
  case none =>
    have hmiss2 : getCachedResult cache q t2 = none := getCachedResult_none_mono hm hle
    have hframe : (parseQuery q cache now cls).cache = cache := by
      simp only [parseQuery, hm]
      split
      · rfl
      · cases cls with
        | some raw =>
          exfalso
          simp only [parseQuery, hm] at hfb
          rw [if_neg (by assumption)] at hfb
          cases hfb
        | none => rfl
    refine ⟨hframe, ?_⟩
    rw [hframe]
    simp only [parseQuery, hmiss2]
    split
    · rfl
    · rfl

/-- C10 witness: the fallback on `"xy"` with an unavailable classifier
leaves the empty cache empty, and the repeat is a fallback again. -/
theorem C10_witness :
    (parseQuery ("xy".toList) [] 0 none).cache = [] ∧
    (parseQuery ("xy".toList) (parseQuery ("xy".toList) [] 0 none).cache 5 none).result.fallbackUsed =
      true :=
  C10_fallback_frame ("xy".toList) [] 0 5 none rfl (by norm_num)

/-! ## C2 -/

/-- C2 counterexample: parsing the query `"30-20"` while the classifier is
unavailable resolves through the fallback and returns an age range with
min 30 > max 20 — the fallback copies the textual `N-M` range verbatim, so
the min ≤ max invariant is violated. -/
theorem C2_counterexample :
    rangeInvariantB (parseQuery ("30-20".toList) [] 0 none).result.searchParameters =
      false := by
  decide

/-- `rangeInvariantB` ignores `originalQuery`. -/
theorem rangeInvariantB_setOriginalQuery (x : SearchParameters) (s : String) :
    rangeInvariantB { x with originalQuery := s } = rangeInvariantB x := rfl

/-- The fallback's height range is always ordered (single bound, or a
±5 cm window). -/
theorem rangeOrderedB_fallbackHeight (lq : JStr) :
    rangeOrderedB (fallbackHeight lq) = true := by
  unfold fallbackHeight
  cases hs : scanHeight lq with
  | none => rfl
  | some vc =>
    obtain ⟨v, isCm⟩ := vc
    dsimp only
    split
    · rfl
    · unfold rangeOrderedB
      simp only [decide_eq_true_eq]
      linarith

/-- The fallback's age range is ordered whenever the first textual `N-M`
range (if any) is ordered; the single-age heuristics are always ordered. -/
theorem rangeOrderedB_fallbackAge (q : JStr) (h : fallbackAgeTextOrderedB q = true) :
    rangeOrderedB (fallbackAge (jsToLower q)) = true := by
  unfold fallbackAgeTextOrderedB at h
  unfold fallbackAge
  cases hs : scanAgeRange (jsToLower q) with
  | some mnmx =>
    obtain ⟨mn, mx⟩ := mnmx
    rw [hs] at h
    unfold rangeOrderedB
    simp only [decide_eq_true_eq] at h ⊢
    exact_mod_cast h
  | none =>
    cases hsa : scanSingleAge (jsToLower q) with
    | none => rfl
    | some n =>
      dsimp only
      split
      · rfl
      · split
        · rfl
        · unfold rangeOrderedB
          simp only [decide_eq_true_eq]
          linarith

/-- `parseWithFallback` satisfies the range invariant whenever the query's
textual `N-M` age range (if present) is ordered. -/
theorem rangeInvariantB_parseWithFallback (q : JStr)
    (h : fallbackAgeTextOrderedB q = true) :
    rangeInvariantB (parseWithFallback q) = true := by
  have hage : (parseWithFallback q).age = fallbackAge (jsToLower q) := rfl
  have hmv : (parseWithFallback q).marketValue = none := rfl
  have hh : (parseWithFallback q).height = fallbackHeight (jsToLower q) := rfl
  unfold rangeInvariantB
  rw [hage, hmv, hh, rangeOrderedB_fallbackAge q h, rangeOrderedB_fallbackHeight]
  rfl

/-- The clamp of `validateSearchParameters` preserves the range invariant:
it never swaps nor introduces bounds, so an ordered (or half-open) input
range stays ordered. -/
theorem rangeOrderedB_clampRange (keep : ℚ → Bool) (r : Option NumRange)
    (h : rangeOrderedB r = true) :
    rangeOrderedB (clampRange keep r) = true := by
  cases r with
  | none => rfl
  | some rr =>
    obtain ⟨rmn, rmx⟩ := rr
    unfold clampRange
    dsimp only
    split
    · cases rmn with
      | none =>
        cases rmx with
        | none => rfl
        | some b =>
          unfold clampBound
          dsimp only
          split <;> rfl
      | some a =>
        cases rmx with
        | none =>
          unfold clampBound
          dsimp only
          split <;> rfl
        | some b =>
          unfold clampBound
          dsimp only
          split
          · split
            · exact h
            · rfl
          · split <;> rfl
    · rfl

/-- `validateSearchParameters` output satisfies the range invariant when
the classifier's own age and market-value ranges are ordered (it never
compares min with max itself, and never produces a height range). -/
theorem rangeInvariantB_validate (raw : RawClassifierOutput)
    (hA : rangeOrderedB raw.age = true) (hM : rangeOrderedB raw.marketValue = true) :
    rangeInvariantB (validateSearchParameters raw) = true := by
  have h1 : (validateSearchParameters raw).age =
      clampRange (fun m => decide (16 ≤ m) && decide (m ≤ 45)) raw.age := rfl
  have h2 : (validateSearchParameters raw).marketValue =
      clampRange (fun m => decide (0 ≤ m)) raw.marketValue := rfl
  have h3 : (validateSearchParameters raw).height = none := rfl
  unfold rangeInvariantB
  rw [h1, h2, h3, rangeOrderedB_clampRange _ _ hA, rangeOrderedB_clampRange _ _ hM]
  rfl

/-- C2 amended: every `SearchParameters` returned by `parseQuery` satisfies
the range invariant (min ≤ max for age, marketValue and height whenever
both bounds are present) **provided** the classifier's output already
satisfies it for age/marketValue, any textual `N-M` age range in a
fallback-parsed query is ordered, and every cached value satisfies it —
validation and the fallback preserve the invariant but do not establish
it. -/
theorem C2_amended (q : JStr) (cache : Cache) (now : ℚ)
    (cls : Option RawClassifierOutput)
    (hcache : cacheRangesOrderedB cache = true)
    (hcls : clsRangesOrderedB cls = true)
    (hfb : fallbackAgeTextOrderedB q = true) :
    rangeInvariantB (parseQuery q cache now cls).result.searchParameters = true := by
  rcases hm : getCachedResult cache q now with _ | e
  case some =>
    have hmem : (jsTrim (jsToLower q), e) ∈ cache := by
      unfold getCachedResult at hm
      rcases hmg : mapGet cache (jsTrim (jsToLower q)) with _ | e2
      case none =>
        rw [hmg] at hm
        cases hm
      case some =>
        rw [hmg] at hm
        dsimp only at hm
        split at hm
        · injection hm with h'
          subst h'
          exact mapGet_mem hmg
        · cases hm
    have hent := List.all_eq_true.mp hcache _ hmem
    simp only [parseQuery, hm]
    rw [rangeInvariantB_setOriginalQuery]
    exact hent
  case none =>
    simp only [parseQuery, hm]
    split
    · exact rangeInvariantB_parseWithFallback q hfb
    · cases cls with
      | some raw =>
        unfold clsRangesOrderedB at hcls
        rw [Bool.and_eq_true] at hcls
        dsimp only
        rw [rangeInvariantB_setOriginalQuery]
        exact rangeInvariantB_validate raw hcls.1 hcls.2
      | none => exact rangeInvariantB_parseWithFallback q hfb

/-- C2 witness: the amended claim at the query `"striker"`, empty cache,
unavailable classifier. -/
theorem C2_witness :
    rangeInvariantB (parseQuery ("striker".toList) [] 0 none).result.searchParameters =
      true :=
  C2_amended ("striker".toList) [] 0 none rfl rfl (by decide)

/-! ## C5 -/

/-- C5 counterexample: a goals range with min 10 > max 5 passes
`safeValidateAdvanced` — the schema has no min ≤ max refinement on the
goals, assists or appearances ranges. -/
theorem C5_counterexample :
    exC5Raw.goals = some ⟨some 10, some 5⟩ ∧ ¬ ((10 : ℚ) ≤ 5) ∧
    (safeValidateAdvanced exC5Raw).isOk = true := by
  refine ⟨rfl, by norm_num, ?_⟩
  decide

/-- An empty `zNumber` issue list certifies both endpoint bounds. -/
theorem zNumber_eq_nil {field : String} {int : Bool} {lo hi q : ℚ}
    (h : zNumber field int lo hi (some q) = []) : lo ≤ q ∧ q ≤ hi := by
  unfold zNumber at h
  dsimp only at h
  rcases List.append_eq_nil.mp h with ⟨h12, h3⟩
  rcases List.append_eq_nil.mp h12 with ⟨_, h2⟩
  constructor
  · by_contra hc
    rw [if_neg hc] at h2
    cases h2
  · by_contra hc
    rw [if_neg hc] at h3
    cases h3

/-- A refined range object with both bounds present, min > max, and a
nonzero (or bounded-below-by-a-positive-minimum) max always raises an
issue: either an endpoint check fails, or the refinement fires. -/
theorem zRange_refine_ne_nil (field : String) (lo hi : ℚ) (msg : String)
    (a b : ℚ) (hlo : 0 ≤ lo) (hba : b < a) (hbnz : b ≠ 0 ∨ 0 < lo) :
    zRange field lo hi true msg (some ⟨some a, some b⟩) ≠ [] := by
  unfold zRange
  dsimp only
  intro hres
  by_cases hbase : zNumber (field ++ ".min") true lo hi (some a) ++
      zNumber (field ++ ".max") true lo hi (some b) = []
  · have hmin := zNumber_eq_nil (List.append_eq_nil.mp hbase).1
    have hmax := zNumber_eq_nil (List.append_eq_nil.mp hbase).2
    have hb0 : b ≠ 0 := by
      rcases hbnz with h | h
      · exact h
      · have : 0 < b := lt_of_lt_of_le h hmax.1
        linarith
    have ha0 : a ≠ 0 := by
      have : 0 < a := lt_of_le_of_lt (le_trans hlo hmax.1) hba
      linarith
    have hta : numTruthy (some a) = true := by simp [numTruthy, ha0]
    have htb : numTruthy (some b) = true := by simp [numTruthy, hb0]
    have htc : decide ((some a).getD 0 ≤ (some b).getD 0) = false := by
      simp only [Option.getD_some]
      exact decide_eq_false (not_le.mpr hba)
    rw [hbase] at hres
    simp only [List.isEmpty_nil, Bool.and_true, if_true, hta, htb, htc,
      Bool.not_true, Bool.or_false, Bool.false_or, List.nil_append] at hres
    cases hres
  · have hbe : (zNumber (field ++ ".min") true lo hi (some a) ++
        zNumber (field ++ ".max") true lo hi (some b)).isEmpty = false := by
      rcases hx : zNumber (field ++ ".min") true lo hi (some a) ++
          zNumber (field ++ ".max") true lo hi (some b) with _ | ⟨y, ys⟩
      · exact absurd hx hbase
      · rfl
    rw [hbe] at hres
    simp only [Bool.and_false, if_false] at hres
    exact hbase hres

/-- C5 amended: `safeValidateAdvanced` rejects a reversed range (both
bounds present with min > max) for age and height always, and for
marketValue whenever the max bound is nonzero (a zero bound is falsy, so
the refinement is skipped); the goals, assists and appearances ranges are
never compared (see the counterexample). -/
theorem C5_amended (raw : RawAdvancedSearch) (a b : ℚ)
    (h : (raw.age = some ⟨some a, some b⟩ ∧ b < a) ∨
         (raw.height = some ⟨some a, some b⟩ ∧ b < a) ∨
         (raw.marketValue = some ⟨some a, some b⟩ ∧ b < a ∧ b ≠ 0)) :
    (safeValidateAdvanced raw).isOk = false := by
  unfold safeValidateAdvanced
  dsimp only
  split
  · rename_i hEmpty
    exfalso
    have hnil : advancedSchemaIssues raw = [] := List.isEmpty_iff.mp hEmpty
    simp only [advancedSchemaIssues, List.append_eq_nil, and_assoc] at hnil
    obtain ⟨_, _, _, hage, _, _, _, hmv, hheight, _⟩ := hnil
    rcases h with ⟨hEq, hba⟩ | ⟨hEq, hba⟩ | ⟨hEq, hba, hb0⟩
    · rw [hEq] at hage
      exact zRange_refine_ne_nil "age" 16 45
        "Minimum age cannot be greater than maximum age" a b (by norm_num) hba
        (Or.inr (by norm_num)) hage
    · rw [hEq] at hheight
      exact zRange_refine_ne_nil "height" 150 220
        "Minimum height cannot be greater than maximum height" a b (by norm_num) hba
        (Or.inr (by norm_num)) hheight
    · rw [hEq] at hmv
      exact zRange_refine_ne_nil "marketValue" 0 500000000
        "Minimum market value cannot be greater than maximum market value" a b
        le_rfl hba (Or.inl hb0) hmv
  · rfl

/-- C5 witness: the amended claim at a reversed age range. -/
theorem C5_witness : (safeValidateAdvanced exC5AgeRaw).isOk = false :=
  C5_amended exC5AgeRaw 30 16 (Or.inl ⟨rfl, by norm_num⟩)

end FootballScout
